import Mathlib

/-!
Verification of the interior-layout generation pipeline:
grid snapper, constraint engine, candidate-generator retry wrapper,
adaptive fanout controller and the orchestration loop.

Source files embedded (Python, shallow embedding over ℚ):
  app/services/grid_snapper.py
  app/services/constraint_checker.py
  app/services/generation_pipeline.py
  app/integrations/layout_generator.py
  app/models/layout.py, app/models/constraints.py, app/models/generation.py

Conventions: Python floats are modelled as rationals (ℚ), Python ints as ℤ
(or ℕ where the source value is a length/count that is provably
non-negative).  Functions that raise are modelled with Option/Except.
Shapely geometry operations are abstracted into a `Geom` kernel record;
every claim that depends on a geometric fact states it as a hypothesis
about the kernel, and concrete instances evaluate the kernel on
axis-aligned rectangles where the operations are exact.
-/

/-- Severity of a constraint violation (`Literal["error", "warning"]` in
`app/models/constraints.py`). -/
inductive Severity where
  | error
  | warning
deriving DecidableEq, Repr

/-- Violation categories (`ConstraintViolationType` in `app/models/constraints.py`). -/
inductive ConstraintViolationType where
  | ROOM_OVERLAP
  | CORRIDOR_TOO_NARROW
  | DOOR_SWING_BLOCKED
  | ROOM_NOT_ENCLOSED
  | AREA_EXCEEDS_PERIMETER
  | FIXTURE_OUTSIDE_ROOM
  | FIXTURE_OVERLAP
deriving DecidableEq, Repr

/-- `ConstraintViolation` from `app/models/constraints.py`. -/
structure ConstraintViolation where
  type : ConstraintViolationType
  description : String
  severity : Severity
  affected_elements : List String
deriving DecidableEq, Repr

/-- `ConstraintResult` from `app/models/constraints.py`. -/
structure ConstraintResult where
  passed : Bool
  violations : List ConstraintViolation
  summary : String
deriving DecidableEq, Repr

/-- `InteriorWall` from `app/models/layout.py`. -/
structure InteriorWall where
  id : String
  x1 : ℚ
  y1 : ℚ
  x2 : ℚ
  y2 : ℚ
  thickness_mm : ℚ
  material : String
deriving DecidableEq, Repr

/-- Door swing direction (`Literal["left", "right", "sliding"]`). -/
inductive SwingDirection where
  | left
  | right
  | sliding
deriving DecidableEq, Repr

/-- Door type (`Literal["single", "double", "sliding"]`). -/
inductive DoorType where
  | single
  | double
  | sliding
deriving DecidableEq, Repr

/-- `Door` from `app/models/layout.py`. -/
structure Door where
  id : String
  wall_id : String
  position_along_wall : ℚ
  width_mm : ℚ
  swing_direction : SwingDirection
  door_type : DoorType
deriving DecidableEq, Repr

/-- `Fixture` from `app/models/layout.py`. -/
structure Fixture where
  id : String
  room_name : String
  fixture_type : String
  center_x : ℚ
  center_y : ℚ
  width_mm : ℚ
  depth_mm : ℚ
  rotation_deg : ℚ
deriving DecidableEq, Repr

/-- `GeneratedRoom` from `app/models/layout.py`. -/
structure GeneratedRoom where
  name : String
  room_type : String
  boundary : List (ℚ × ℚ)
  area_sqm : ℚ
deriving DecidableEq, Repr

/-- One value of a loosely-typed perimeter-wall dict entry
(`perimeter_walls : list[dict[str, Any]]`).  Only numeric and string
values are relevant to the embedded code paths. -/
inductive PValue where
  | num (q : ℚ)
  | str (s : String)
deriving DecidableEq, Repr

/-- A perimeter wall is a Python dict: an association list with unique keys,
insertion-ordered. -/
abbrev PerimWall := List (String × PValue)

/-- `GeneratedLayout` from `app/models/layout.py`. -/
structure GeneratedLayout where
  rooms : List GeneratedRoom
  interior_walls : List InteriorWall
  doors : List Door
  fixtures : List Fixture
  grid_size_mm : ℤ
  prompt : String
  perimeter_walls : List PerimWall
  page_dimensions_mm : ℚ × ℚ
deriving DecidableEq, Repr

/-- `GenerationResult` from `app/models/generation.py`. -/
structure GenerationResult where
  layout : Option GeneratedLayout
  success : Bool
  iterations_used : ℤ
  constraint_history : List ConstraintResult
  error_message : Option String
deriving DecidableEq, Repr

/-!  ## Grid snapper (`app/services/grid_snapper.py`)  -/

/-- Round a rational half away from zero to an integer:
`math.floor(ratio + 0.5)` on the non-negative branch,
`math.ceil(ratio - 0.5)` on the negative branch (`snap_to_grid` body). -/
def snapRatioInt (ratio : ℚ) : ℤ :=
  if 0 ≤ ratio then ⌊ratio + 1/2⌋ else ⌈ratio - 1/2⌉

/-- Core of `snap_to_grid` for a positive grid pitch: round `value / grid_mm`
half away from zero and rescale. -/
def qsnap (value : ℚ) (grid_mm : ℤ) : ℚ :=
  (snapRatioInt (value / (grid_mm : ℚ)) : ℚ) * (grid_mm : ℚ)

/-- `snap_to_grid` from `app/services/grid_snapper.py`; raises `ValueError`
(modelled as `none`) when `grid_mm <= 0`. -/
def snap_to_grid (value : ℚ) (grid_mm : ℤ) : Option ℚ :=
  if grid_mm ≤ 0 then none else some (qsnap value grid_mm)

/-- `_shoelace_area_sqm` from `app/services/grid_snapper.py`. -/
def shoelace_area_sqm (boundary : List (ℚ × ℚ)) : ℚ :=
  let area_twice :=
    (List.range (boundary.length - 1)).foldl
      (fun acc idx =>
        let p1 := boundary.getD idx (0, 0)
        let p2 := boundary.getD (idx + 1) (0, 0)
        acc + (p1.1 * p2.2 - p2.1 * p1.2))
      0
  (abs area_twice / 2) / 1000000

/-- Snap one perimeter-wall dict: for the keys x1, y1, x2, y2, thickness_mm
whose value is numeric, replace the value with its snapped version (dict
update keeps insertion order; keys are unique in a Python dict). -/
def snapPerimWall (grid_mm : ℤ) (wall : PerimWall) : PerimWall :=
  wall.map (fun kv =>
    if (kv.1 = "x1" ∨ kv.1 = "y1" ∨ kv.1 = "x2" ∨ kv.1 = "y2" ∨
        kv.1 = "thickness_mm") then
      match kv.2 with
      | .num q => (kv.1, .num (qsnap q grid_mm))
      | .str s => (kv.1, .str s)
    else kv)

/-- Snap one room: snap every boundary vertex and recompute `area_sqm`
with the shoelace formula on the snapped boundary. -/
def snapRoomF (grid_mm : ℤ) (room : GeneratedRoom) : GeneratedRoom :=
  let snapped_boundary :=
    room.boundary.map (fun p => (qsnap p.1 grid_mm, qsnap p.2 grid_mm))
  { room with
    boundary := snapped_boundary
    area_sqm := shoelace_area_sqm snapped_boundary }

/-- Snap one interior wall (endpoints only; thickness is left alone). -/
def snapWallF (grid_mm : ℤ) (wall : InteriorWall) : InteriorWall :=
  { wall with
    x1 := qsnap wall.x1 grid_mm
    y1 := qsnap wall.y1 grid_mm
    x2 := qsnap wall.x2 grid_mm
    y2 := qsnap wall.y2 grid_mm }

/-- Snap one fixture (center, width and depth). -/
def snapFixtureF (grid_mm : ℤ) (fixture : Fixture) : Fixture :=
  { fixture with
    center_x := qsnap fixture.center_x grid_mm
    center_y := qsnap fixture.center_y grid_mm
    width_mm := qsnap fixture.width_mm grid_mm
    depth_mm := qsnap fixture.depth_mm grid_mm }

/-- Body of `snap_layout_to_grid` once the positive-pitch guard has passed
(the first `snap_to_grid` call would raise otherwise; `page_dimensions_mm`
is always snapped, so a non-positive pitch always raises). -/
def snapLayoutCore (layout : GeneratedLayout) (grid_mm : ℤ) : GeneratedLayout :=
  { rooms := layout.rooms.map (snapRoomF grid_mm)
    interior_walls := layout.interior_walls.map (snapWallF grid_mm)
    doors := layout.doors
    fixtures := layout.fixtures.map (snapFixtureF grid_mm)
    grid_size_mm := grid_mm
    prompt := layout.prompt
    perimeter_walls := layout.perimeter_walls.map (snapPerimWall grid_mm)
    page_dimensions_mm :=
      (qsnap layout.page_dimensions_mm.1 grid_mm,
       qsnap layout.page_dimensions_mm.2 grid_mm) }

/-- `snap_layout_to_grid` from `app/services/grid_snapper.py`.  Returns a new
layout (the Python code deep-copies, then mutates only the copy); `none`
models the `ValueError` raised for a non-positive grid pitch. -/
def snap_layout_to_grid (layout : GeneratedLayout) (grid_mm : ℤ) :
    Option GeneratedLayout :=
  if grid_mm ≤ 0 then none else some (snapLayoutCore layout grid_mm)

/-!  ## Rounding lemmas for the snapper  -/

lemma floor_half_q : ⌊(1/2 : ℚ)⌋ = 0 := by
  rw [Int.floor_eq_iff]; norm_num

lemma ceil_neg_half_q : ⌈(-(1/2) : ℚ)⌉ = 0 := by
  rw [Int.ceil_eq_iff]; norm_num

lemma snapRatioInt_intCast (k : ℤ) : snapRatioInt (k : ℚ) = k := by
  unfold snapRatioInt
  by_cases h : (0 : ℚ) ≤ (k : ℚ)
  · rw [if_pos h, add_comm, Int.floor_add_int, floor_half_q, zero_add]
  · rw [if_neg h]
    have : (k : ℚ) - 1/2 = (-(1/2) : ℚ) + k := by ring
    rw [this, Int.ceil_add_int, ceil_neg_half_q, zero_add]

lemma qsnap_int_mul (g : ℤ) (hg : 0 < g) (k : ℤ) :
    qsnap ((k : ℚ) * g) g = (k : ℚ) * g := by
  have hg0 : ((g : ℚ)) ≠ 0 := by
    exact_mod_cast hg.ne'
  unfold qsnap
  rw [mul_div_cancel_right₀ _ hg0, snapRatioInt_intCast]

lemma qsnap_idem (g : ℤ) (hg : 0 < g) (v : ℚ) :
    qsnap (qsnap v g) g = qsnap v g := by
  have h : qsnap v g = ((snapRatioInt (v / (g : ℚ)) : ℚ)) * g := rfl
  rw [h, qsnap_int_mul g hg]

lemma snapRatioInt_nonneg_bounds (r : ℚ) (h : 0 ≤ r) :
    (snapRatioInt r : ℚ) - r ≤ 1/2 ∧ r - snapRatioInt r < 1/2 ∧
      0 ≤ snapRatioInt r := by
  unfold snapRatioInt
  rw [if_pos h]
  refine ⟨?_, ?_, ?_⟩
  · have := Int.floor_le (r + 1/2)
    linarith
  · have := Int.lt_floor_add_one (r + 1/2)
    push_cast at this
    linarith
  · rw [Int.le_floor]
    push_cast
    linarith

lemma snapRatioInt_neg_bounds (r : ℚ) (h : ¬ 0 ≤ r) :
    r - snapRatioInt r ≤ 1/2 ∧ (snapRatioInt r : ℚ) - r < 1/2 ∧
      snapRatioInt r ≤ 0 := by
  unfold snapRatioInt
  rw [if_neg h]
  push_neg at h
  refine ⟨?_, ?_, ?_⟩
  · have := Int.le_ceil (r - 1/2)
    linarith
  · have := Int.ceil_lt_add_one (r - 1/2)
    push_cast at this
    linarith
  · rw [Int.ceil_le]
    push_cast
    linarith

lemma snapRatioInt_abs_le (r : ℚ) : |r - (snapRatioInt r : ℚ)| ≤ 1/2 := by
  rw [abs_le]
  by_cases h : 0 ≤ r
  · obtain ⟨h1, h2, _⟩ := snapRatioInt_nonneg_bounds r h
    constructor <;> linarith
  · obtain ⟨h1, h2, _⟩ := snapRatioInt_neg_bounds r h
    constructor <;> linarith

lemma snapRatioInt_nearest (r : ℚ) (m : ℤ) :
    |r - (snapRatioInt r : ℚ)| ≤ |r - (m : ℚ)| := by
  by_cases hm : m = snapRatioInt r
  · rw [hm]
  · have hs := snapRatioInt_abs_le r
    have hd : (1 : ℚ) ≤ |(snapRatioInt r : ℚ) - (m : ℚ)| := by
      have h1 : (1 : ℤ) ≤ |snapRatioInt r - m| :=
        Int.one_le_abs (sub_ne_zero.mpr (fun hc => hm hc.symm))
      have : ((|snapRatioInt r - m| : ℤ) : ℚ) = |(snapRatioInt r : ℚ) - (m : ℚ)| := by
        push_cast
        rfl
      rw [← this]
      exact_mod_cast h1
    have tri : |(snapRatioInt r : ℚ) - (m : ℚ)| ≤
        |(snapRatioInt r : ℚ) - r| + |r - (m : ℚ)| := abs_sub_le _ _ _
    rw [abs_sub_comm _ r] at tri
    linarith

lemma snapRatioInt_tie_away (r : ℚ) (m : ℤ)
    (h : |r - (m : ℚ)| = |r - (snapRatioInt r : ℚ)|) :
    |(m : ℚ)| ≤ |(snapRatioInt r : ℚ)| := by
  by_cases hm : m = snapRatioInt r
  · rw [hm]
  · have hs := snapRatioInt_abs_le r
    have hd : (1 : ℚ) ≤ |(snapRatioInt r : ℚ) - (m : ℚ)| := by
      have h1 : (1 : ℤ) ≤ |snapRatioInt r - m| :=
        Int.one_le_abs (sub_ne_zero.mpr (fun hc => hm hc.symm))
      have hcast : ((|snapRatioInt r - m| : ℤ) : ℚ) =
          |(snapRatioInt r : ℚ) - (m : ℚ)| := by
        push_cast
        rfl
      rw [← hcast]
      exact_mod_cast h1
    have tri : |(snapRatioInt r : ℚ) - (m : ℚ)| ≤
        |(snapRatioInt r : ℚ) - r| + |r - (m : ℚ)| := abs_sub_le _ _ _
    rw [abs_sub_comm _ r] at tri
    -- the distances are both exactly 1/2
    have he : |r - (snapRatioInt r : ℚ)| = 1/2 := by
      rw [h] at tri
      linarith [le_antisymm hs (by linarith)]
    have hm2 : |r - (m : ℚ)| = 1/2 := by rw [h, he]
    by_cases hr : 0 ≤ r
    · obtain ⟨hb1, hb2, hb3⟩ := snapRatioInt_nonneg_bounds r hr
      -- on the non-negative branch the strict side forces s = r + 1/2
      have hsr : (snapRatioInt r : ℚ) - r = 1/2 := by
        rcases abs_eq (by norm_num : (0:ℚ) ≤ 1/2) |>.mp he with hc | hc
        · linarith
        · linarith
      have hmr : r - (m : ℚ) = 1/2 := by
        rcases abs_eq (by norm_num : (0:ℚ) ≤ 1/2) |>.mp hm2 with hc | hc
        · exact hc
        · exfalso
          apply hm
          have : (m : ℚ) = (snapRatioInt r : ℚ) := by linarith
          exact_mod_cast this
      have hspos : (0 : ℚ) < (snapRatioInt r : ℚ) := by linarith
      have hsposZ : 0 < snapRatioInt r := by exact_mod_cast hspos
      have hs1 : (1 : ℚ) ≤ (snapRatioInt r : ℚ) := by exact_mod_cast hsposZ
      have hmge : (0 : ℚ) ≤ (m : ℚ) := by linarith
      rw [abs_of_nonneg hmge, abs_of_nonneg (le_of_lt hspos)]
      linarith
    · obtain ⟨hb1, hb2, hb3⟩ := snapRatioInt_neg_bounds r hr
      have hsr : r - (snapRatioInt r : ℚ) = 1/2 := by
        rcases abs_eq (by norm_num : (0:ℚ) ≤ 1/2) |>.mp he with hc | hc
        · exact hc
        · linarith
      have hmr : (m : ℚ) - r = 1/2 := by
        rcases abs_eq (by norm_num : (0:ℚ) ≤ 1/2) |>.mp hm2 with hc | hc
        · exfalso
          apply hm
          have : (m : ℚ) = (snapRatioInt r : ℚ) := by linarith
          exact_mod_cast this
        · linarith
      push_neg at hr
      have hsneg : (snapRatioInt r : ℚ) < 0 := by linarith
      have hsnegZ : snapRatioInt r < 0 := by exact_mod_cast hsneg
      have hs1 : (snapRatioInt r : ℚ) ≤ -1 := by
        have : snapRatioInt r ≤ -1 := by omega
        exact_mod_cast this
      have hmle : (m : ℚ) ≤ 0 := by linarith
      rw [abs_of_nonpos hmle, abs_of_nonpos (le_of_lt hsneg)]
      linarith

/-- Mapping a function that fixes every element of a list is the identity. -/
lemma list_map_self {α : Type} (f : α → α) (l : List α)
    (h : ∀ x ∈ l, f x = x) : l.map f = l := by
  induction l with
  | nil => rfl
  | cons a t ih =>
      simp only [List.map_cons]
      rw [h a (by simp), ih (fun x hx => h x (by simp [hx]))]

lemma snapRoomF_idem (g : ℤ) (hg : 0 < g) (room : GeneratedRoom) :
    snapRoomF g (snapRoomF g room) = snapRoomF g room := by
  have hb : (room.boundary.map (fun p => (qsnap p.1 g, qsnap p.2 g))).map
      (fun p => (qsnap p.1 g, qsnap p.2 g)) =
      room.boundary.map (fun p => (qsnap p.1 g, qsnap p.2 g)) := by
    apply list_map_self
    intro x hx
    rcases List.mem_map.mp hx with ⟨y, _, rfl⟩
    simp [qsnap_idem g hg]
  simp [snapRoomF, hb]

lemma snapWallF_idem (g : ℤ) (hg : 0 < g) (wall : InteriorWall) :
    snapWallF g (snapWallF g wall) = snapWallF g wall := by
  simp [snapWallF, qsnap_idem g hg]

lemma snapFixtureF_idem (g : ℤ) (hg : 0 < g) (fixture : Fixture) :
    snapFixtureF g (snapFixtureF g fixture) = snapFixtureF g fixture := by
  simp [snapFixtureF, qsnap_idem g hg]

lemma snapPerimWall_idem (g : ℤ) (hg : 0 < g) (wall : PerimWall) :
    snapPerimWall g (snapPerimWall g wall) = snapPerimWall g wall := by
  unfold snapPerimWall
  apply list_map_self
  intro kv' hkv'
  rcases List.mem_map.mp hkv' with ⟨kv, _, rfl⟩
  by_cases hk : (kv.1 = "x1" ∨ kv.1 = "y1" ∨ kv.1 = "x2" ∨ kv.1 = "y2" ∨
      kv.1 = "thickness_mm")
  · cases hv : kv.2 with
    | num q => simp [hk, hv, qsnap_idem g hg]
    | str s => simp [hk, hv]
  · simp [hk]

lemma snapLayoutCore_idem (layout : GeneratedLayout) (g : ℤ) (hg : 0 < g) :
    snapLayoutCore (snapLayoutCore layout g) g = snapLayoutCore layout g := by
  unfold snapLayoutCore
  simp only [GeneratedLayout.mk.injEq]
  refine ⟨?_, ?_, trivial, ?_, trivial, trivial, ?_, ?_⟩
  · apply list_map_self
    intro x hx
    rcases List.mem_map.mp hx with ⟨r, _, rfl⟩
    exact snapRoomF_idem g hg r
  · apply list_map_self
    intro x hx
    rcases List.mem_map.mp hx with ⟨w, _, rfl⟩
    exact snapWallF_idem g hg w
  · apply list_map_self
    intro x hx
    rcases List.mem_map.mp hx with ⟨f, _, rfl⟩
    exact snapFixtureF_idem g hg f
  · apply list_map_self
    intro x hx
    rcases List.mem_map.mp hx with ⟨w, _, rfl⟩
    exact snapPerimWall_idem g hg w
  · exact Prod.ext (qsnap_idem g hg _) (qsnap_idem g hg _)

/-- C7: for a positive grid pitch, `snap_to_grid` returns the multiple of the
pitch nearest to the value, with exact midpoints rounded away from zero
(at a tie the chosen multiple has the larger absolute value); for a
non-positive pitch it raises `ValueError` (modelled as `none`). -/
theorem snap_to_grid_nearest_multiple (v : ℚ) (g : ℤ) :
    (g ≤ 0 → snap_to_grid v g = none) ∧
    (0 < g → ∃ s : ℤ, snap_to_grid v g = some ((s : ℚ) * (g : ℚ)) ∧
      (∀ m : ℤ, |v - (s : ℚ) * (g : ℚ)| ≤ |v - (m : ℚ) * (g : ℚ)|) ∧
      (∀ m : ℤ, |v - (m : ℚ) * (g : ℚ)| = |v - (s : ℚ) * (g : ℚ)| →
        |(m : ℚ) * (g : ℚ)| ≤ |(s : ℚ) * (g : ℚ)|)) := by
  constructor
  · intro h
    simp [snap_to_grid, h]
  · intro hg
    have hgq : (0 : ℚ) < (g : ℚ) := by exact_mod_cast hg
    have hgne : ((g : ℚ)) ≠ 0 := hgq.ne'
    refine ⟨snapRatioInt (v / (g : ℚ)), ?_, ?_, ?_⟩
    · rw [snap_to_grid, if_neg (not_le.mpr hg)]
      rfl
    · intro m
      have habs : ∀ m : ℤ, |v - (m : ℚ) * (g : ℚ)| =
          |v / (g : ℚ) - (m : ℚ)| * (g : ℚ) := by
        intro m
        have hv : v - (m : ℚ) * (g : ℚ) = (v / (g : ℚ) - (m : ℚ)) * (g : ℚ) := by
          field_simp
          ring
        rw [hv, abs_mul, abs_of_pos hgq]
      rw [habs, habs]
      exact mul_le_mul_of_nonneg_right
        (snapRatioInt_nearest (v / (g : ℚ)) m) (le_of_lt hgq)
    · intro m hm
      have habs : ∀ m : ℤ, |v - (m : ℚ) * (g : ℚ)| =
          |v / (g : ℚ) - (m : ℚ)| * (g : ℚ) := by
        intro m
        have hv : v - (m : ℚ) * (g : ℚ) = (v / (g : ℚ) - (m : ℚ)) * (g : ℚ) := by
          field_simp
          ring
        rw [hv, abs_mul, abs_of_pos hgq]
      rw [habs, habs] at hm
      have hm2 : |v / (g : ℚ) - (m : ℚ)| =
          |v / (g : ℚ) - (snapRatioInt (v / (g : ℚ)) : ℚ)| :=
        mul_right_cancel₀ hgne hm
      have := snapRatioInt_tie_away (v / (g : ℚ)) m hm2
      rw [abs_mul, abs_mul]
      exact mul_le_mul_of_nonneg_right this (abs_nonneg _)

/-- Witness for C7 at v = 75, grid = 50 (midpoint: snaps to 100). -/
theorem snap_to_grid_nearest_multiple_witness :
    0 < (50 : ℤ) ∧
    (∃ s : ℤ, snap_to_grid (75 : ℚ) 50 = some ((s : ℚ) * ((50 : ℤ) : ℚ)) ∧
      (∀ m : ℤ, |(75 : ℚ) - (s : ℚ) * ((50 : ℤ) : ℚ)| ≤
        |(75 : ℚ) - (m : ℚ) * ((50 : ℤ) : ℚ)|) ∧
      (∀ m : ℤ, |(75 : ℚ) - (m : ℚ) * ((50 : ℤ) : ℚ)| =
          |(75 : ℚ) - (s : ℚ) * ((50 : ℤ) : ℚ)| →
        |(m : ℚ) * ((50 : ℤ) : ℚ)| ≤ |(s : ℚ) * ((50 : ℤ) : ℚ)|)) :=
  ⟨by decide, (snap_to_grid_nearest_multiple 75 50).2 (by decide)⟩

/-- C8: grid snapping is idempotent — snapping a snapped layout returns it
unchanged; every snapped coordinate is an exact multiple of the pitch and
each snapped room's area field is exactly the shoelace area of its snapped
boundary. -/
theorem snap_layout_to_grid_idempotent (layout : GeneratedLayout) (g : ℤ)
    (hg : 0 < g) :
    ((snap_layout_to_grid layout g).bind
      (fun snapped => snap_layout_to_grid snapped g) =
      snap_layout_to_grid layout g) ∧
    (∀ snapped, snap_layout_to_grid layout g = some snapped →
      ∀ room ∈ snapped.rooms,
        (∀ p ∈ room.boundary,
          (∃ k : ℤ, p.1 = (k : ℚ) * (g : ℚ)) ∧
          (∃ k : ℤ, p.2 = (k : ℚ) * (g : ℚ))) ∧
        room.area_sqm = shoelace_area_sqm room.boundary) := by
  have hneg : ¬ g ≤ 0 := not_le.mpr hg
  constructor
  · rw [snap_layout_to_grid, if_neg hneg]
    show snap_layout_to_grid (snapLayoutCore layout g) g =
      some (snapLayoutCore layout g)
    rw [snap_layout_to_grid, if_neg hneg, snapLayoutCore_idem layout g hg]
  · intro snapped hsnapped room hroom
    rw [snap_layout_to_grid, if_neg hneg, Option.some_inj] at hsnapped
    subst hsnapped
    rcases List.mem_map.mp hroom with ⟨r, _, rfl⟩
    constructor
    · intro p hp
      rcases List.mem_map.mp hp with ⟨q, _, rfl⟩
      exact ⟨⟨snapRatioInt (q.1 / (g : ℚ)), rfl⟩,
             ⟨snapRatioInt (q.2 / (g : ℚ)), rfl⟩⟩
    · rfl

/-- A sample layout used to instantiate theorems with hypotheses. -/
def wLayout : GeneratedLayout :=
  { rooms := [⟨"Operatory 1", "operatory",
        [(0, 0), (3000, 0), (3000, 3200), (0, 3200), (0, 0)], 96/10⟩]
    interior_walls := [⟨"iw_1", 3000, 0, 3000, 6000, 100, "drywall"⟩]
    doors := [⟨"d_1", "iw_1", 1/2, 900, .left, .single⟩]
    fixtures := [⟨"f_1", "Operatory 1", "dental_chair", 1500, 1600,
        1000, 2200, 0⟩]
    grid_size_mm := 50
    prompt := "6 operatory dental clinic with reception"
    perimeter_walls := [[("id", .str "perimeter_1"), ("x1", .num 0),
        ("y1", .num 0), ("x2", .num 10000), ("y2", .num 0),
        ("thickness_mm", .num 200)]]
    page_dimensions_mm := (10000, 8000) }

/-- Witness for C8 on a concrete layout at pitch 50. -/
theorem snap_layout_to_grid_idempotent_witness :
    0 < (50 : ℤ) ∧
    (((snap_layout_to_grid wLayout 50).bind
        (fun snapped => snap_layout_to_grid snapped 50) =
        snap_layout_to_grid wLayout 50) ∧
      (∀ snapped, snap_layout_to_grid wLayout 50 = some snapped →
        ∀ room ∈ snapped.rooms,
          (∀ p ∈ room.boundary,
            (∃ k : ℤ, p.1 = (k : ℚ) * ((50 : ℤ) : ℚ)) ∧
            (∃ k : ℤ, p.2 = (k : ℚ) * ((50 : ℤ) : ℚ))) ∧
          room.area_sqm = shoelace_area_sqm room.boundary)) :=
  ⟨by decide, snap_layout_to_grid_idempotent wLayout 50 (by decide)⟩

/-!  ## Layout data-model invariants (claim C9)  -/

/-- The Layout data-model invariants named by the spec: every room boundary
closed (first vertex equals last), every door position fraction in [0,1],
every fixture and partition of strictly positive size, page dimensions
strictly positive (pydantic constraints in `app/models/layout.py`). -/
def checkLayoutInvariants (layout : GeneratedLayout) : Bool :=
  layout.rooms.all (fun room =>
    !room.boundary.isEmpty &&
      decide (room.boundary.head? = room.boundary.getLast?)) &&
  layout.doors.all (fun door =>
    decide (0 ≤ door.position_along_wall ∧ door.position_along_wall ≤ 1)) &&
  layout.fixtures.all (fun fixture =>
    decide (0 < fixture.width_mm ∧ 0 < fixture.depth_mm)) &&
  layout.interior_walls.all (fun wall => decide (0 < wall.thickness_mm)) &&
  decide (0 < layout.page_dimensions_mm.1 ∧ 0 < layout.page_dimensions_mm.2)

/-- A valid layout whose only fixture is 20 mm wide: snapping at the default
50 mm pitch collapses the width to 0. -/
def cexTinyFixtureLayout : GeneratedLayout :=
  { rooms := []
    interior_walls := []
    doors := []
    fixtures := [⟨"f_1", "Room A", "stool", 100, 100, 20, 100, 0⟩]
    grid_size_mm := 50
    prompt := "p"
    perimeter_walls := []
    page_dimensions_mm := (1000, 1000) }

/-- Evaluate `qsnap` at a concrete non-negative argument through explicit
floor bounds (kernel reduction on ℚ is unavailable). -/
lemma qsnap_eq_of_bounds (v : ℚ) (g z : ℤ) (h0 : 0 ≤ v / (g : ℚ))
    (hlo : (z : ℚ) ≤ v / (g : ℚ) + 1/2) (hhi : v / (g : ℚ) + 1/2 < z + 1) :
    qsnap v g = (z : ℚ) * (g : ℚ) := by
  unfold qsnap snapRatioInt
  rw [if_pos h0]
  congr 1
  exact_mod_cast Int.floor_eq_iff.mpr ⟨hlo, hhi⟩

lemma qsnap_20_50 : qsnap 20 50 = 0 := by
  have h : qsnap 20 50 = ((0 : ℤ) : ℚ) * ((50 : ℤ) : ℚ) :=
    qsnap_eq_of_bounds 20 50 0 (by norm_num) (by norm_num) (by norm_num)
  rw [h]
  norm_num

lemma qsnap_100_50 : qsnap 100 50 = 100 := by
  have h : qsnap 100 50 = ((2 : ℤ) : ℚ) * ((50 : ℤ) : ℚ) :=
    qsnap_eq_of_bounds 100 50 2 (by norm_num) (by norm_num) (by norm_num)
  rw [h]
  norm_num

lemma qsnap_1000_50 : qsnap 1000 50 = 1000 := by
  have h : qsnap 1000 50 = ((20 : ℤ) : ℚ) * ((50 : ℤ) : ℚ) :=
    qsnap_eq_of_bounds 1000 50 20 (by norm_num) (by norm_num) (by norm_num)
  rw [h]
  norm_num

/-- C9 counterexample: the tiny-fixture layout satisfies every invariant, yet
its snapped image has a fixture of width 0 and fails the invariant check —
snapping does not preserve strict positivity of fixture sizes. -/
theorem snap_layout_invariants_cex :
    checkLayoutInvariants cexTinyFixtureLayout = true ∧
    (snap_layout_to_grid cexTinyFixtureLayout 50).map checkLayoutInvariants =
      some false ∧
    (snap_layout_to_grid cexTinyFixtureLayout 50).map
      (fun snapped => snapped.fixtures.map (fun f => f.width_mm)) =
      some [0] := by
  have hsnap : snap_layout_to_grid cexTinyFixtureLayout 50 =
      some (snapLayoutCore cexTinyFixtureLayout 50) := by
    rw [snap_layout_to_grid, if_neg (by decide)]
  refine ⟨?_, ?_, ?_⟩
  · simp [checkLayoutInvariants, cexTinyFixtureLayout]
  · rw [hsnap]
    simp [checkLayoutInvariants, snapLayoutCore, cexTinyFixtureLayout,
      snapFixtureF, qsnap_20_50, qsnap_100_50, qsnap_1000_50]
  · rw [hsnap]
    simp [snapLayoutCore, cexTinyFixtureLayout, snapFixtureF, qsnap_20_50]

lemma qsnap_ge_of_half (g : ℤ) (hg : 0 < g) (v : ℚ)
    (hv : (g : ℚ) / 2 ≤ v) : (g : ℚ) ≤ qsnap v g := by
  have hgq : (0 : ℚ) < (g : ℚ) := by exact_mod_cast hg
  have hr : (1 : ℚ) / 2 ≤ v / (g : ℚ) := by
    rw [le_div_iff₀ hgq]
    linarith
  have hr0 : (0 : ℚ) ≤ v / (g : ℚ) := by linarith
  have hfloor : (1 : ℤ) ≤ snapRatioInt (v / (g : ℚ)) := by
    unfold snapRatioInt
    rw [if_pos hr0, Int.le_floor]
    push_cast
    linarith
  have : (1 : ℚ) ≤ (snapRatioInt (v / (g : ℚ)) : ℚ) := by exact_mod_cast hfloor
  calc (g : ℚ) = 1 * (g : ℚ) := (one_mul _).symm
    _ ≤ (snapRatioInt (v / (g : ℚ)) : ℚ) * (g : ℚ) :=
        mul_le_mul_of_nonneg_right this (le_of_lt hgq)

/-- C9 (amended): snapping preserves the data-model invariants provided every
fixture width/depth and both page dimensions are at least half the grid
pitch (a positive dimension below half the pitch snaps to zero). -/
theorem snap_layout_preserves_invariants (layout : GeneratedLayout) (g : ℤ)
    (hg : 0 < g) (hinv : checkLayoutInvariants layout = true)
    (hfix : ∀ f ∈ layout.fixtures,
      (g : ℚ) / 2 ≤ f.width_mm ∧ (g : ℚ) / 2 ≤ f.depth_mm)
    (hpage : (g : ℚ) / 2 ≤ layout.page_dimensions_mm.1 ∧
      (g : ℚ) / 2 ≤ layout.page_dimensions_mm.2) :
    ∃ snapped, snap_layout_to_grid layout g = some snapped ∧
      checkLayoutInvariants snapped = true := by
  have hneg : ¬ g ≤ 0 := not_le.mpr hg
  have hgq : (0 : ℚ) < (g : ℚ) := by exact_mod_cast hg
  refine ⟨snapLayoutCore layout g, by rw [snap_layout_to_grid, if_neg hneg], ?_⟩
  unfold checkLayoutInvariants at hinv ⊢
  simp only [Bool.and_eq_true, List.all_eq_true, decide_eq_true_eq] at hinv ⊢
  obtain ⟨⟨⟨⟨hrooms, hdoors⟩, hfixtures⟩, hwalls⟩, hpage0⟩ := hinv
  refine ⟨⟨⟨⟨?_, ?_⟩, ?_⟩, ?_⟩, ?_⟩
  · -- room boundaries stay closed
    intro room hroom
    rcases List.mem_map.mp hroom with ⟨r, hr, rfl⟩
    have := hrooms r hr
    simp only [Bool.and_eq_true, Bool.not_eq_eq_eq_not, Bool.not_true,
      decide_eq_true_eq] at this ⊢
    obtain ⟨hne, hclosed⟩ := this
    constructor
    · show (r.boundary.map _).isEmpty = false
      cases hb : r.boundary with
      | nil => rw [hb] at hne; simp at hne
      | cons a t => simp [hb]
    · show ((r.boundary.map _).head? = (r.boundary.map _).getLast?)
      rw [List.head?_map, List.getLast?_map, hclosed]
  · -- door fractions are untouched
    intro door hdoor
    exact hdoors door hdoor
  · -- fixture sizes stay positive
    intro fixture hfixture
    rcases List.mem_map.mp hfixture with ⟨f, hf, rfl⟩
    obtain ⟨hw, hd⟩ := hfix f hf
    exact ⟨lt_of_lt_of_le hgq (qsnap_ge_of_half g hg _ hw),
           lt_of_lt_of_le hgq (qsnap_ge_of_half g hg _ hd)⟩
  · -- wall thickness is untouched
    intro wall hwall
    rcases List.mem_map.mp hwall with ⟨w, hw, rfl⟩
    exact hwalls w hw
  · -- page dimensions stay positive
    exact ⟨lt_of_lt_of_le hgq (qsnap_ge_of_half g hg _ hpage.1),
           lt_of_lt_of_le hgq (qsnap_ge_of_half g hg _ hpage.2)⟩

/-- Witness for the amended C9 theorem on a concrete layout at pitch 50. -/
theorem snap_layout_preserves_invariants_witness :
    0 < (50 : ℤ) ∧ checkLayoutInvariants wLayout = true ∧
    (∃ snapped, snap_layout_to_grid wLayout 50 = some snapped ∧
      checkLayoutInvariants snapped = true) := by
  have hinv : checkLayoutInvariants wLayout = true := by
    simp [checkLayoutInvariants, wLayout]
    norm_num
  refine ⟨by decide, hinv,
    snap_layout_preserves_invariants wLayout 50 (by decide) hinv ?_ ?_⟩
  · intro f hf
    simp [wLayout] at hf
    subst hf
    norm_num
  · constructor <;> norm_num [wLayout]

/-!  ## Constraint engine (`app/services/constraint_checker.py`)

The Shapely operations are abstracted into a `Geom` kernel.  Every theorem
that needs a geometric fact (e.g. symmetry of intersection area) states it
as a hypothesis on the kernel; concrete instances use axis-aligned
rectangles, on which the operations are exact. -/

/-- Geometry kernel: the Shapely operations used by the constraint checker. -/
structure Geom (Poly : Type) where
  mkPolygon : List (ℚ × ℚ) → Poly
  isValid : Poly → Bool
  isEmpty : Poly → Bool
  area : Poly → ℚ
  interArea : Poly → Poly → ℚ
  negBufferIsEmpty : Poly → ℚ → Bool
  wallPolygon : ℚ → ℚ → ℚ → ℚ → ℚ → Poly
  fixturePolygon : Fixture → Poly
  doorSwingArc : InteriorWall → Door → Poly
  covers : Poly → ℚ × ℚ → Bool

/-- Python-dict insertion on an association list: an existing key keeps its
position and gets the new value, a fresh key is appended. -/
def dictInsert {α : Type} (d : List (String × α)) (k : String) (v : α) :
    List (String × α) :=
  if d.any (fun kv => decide (kv.1 = k)) then
    d.map (fun kv => if kv.1 = k then (k, v) else kv)
  else d ++ [(k, v)]

/-- Python-dict lookup on an association list. -/
def dictGet {α : Type} (d : List (String × α)) (k : String) : Option α :=
  (d.find? (fun kv => decide (kv.1 = k))).map (fun kv => kv.2)

/-- `_as_float` applied to a dict lookup.  Numeric strings (which Python
`float` would parse) are not exercised by any claim and fall back to the
default, like any other non-numeric value. -/
def as_float (v : Option PValue) (default : ℚ) : ℚ :=
  match v with
  | some (.num q) => q
  | _ => default

/-- Python `str()` of a dict value. -/
def pvalToString : PValue → String
  | .num q => toString q
  | .str s => s

/-- All unordered index pairs in source order: `for i: for j in range(i+1, n)`. -/
def pairsOf {α : Type} : List α → List (α × α)
  | [] => []
  | x :: xs => xs.map (fun y => (x, y)) ++ pairsOf xs

/-- The `room_polygons` dict built by the first loop of `validate_layout`
(keyed by room *name*; a later room with the same name overwrites). -/
def roomPolygonsOf {P : Type} (G : Geom P) (rooms : List GeneratedRoom) :
    List (String × P) :=
  rooms.foldl
    (fun acc room => dictInsert acc room.name (G.mkPolygon room.boundary)) []

/-- Enclosure check for one room. -/
def enclosureCheck {P : Type} (G : Geom P) (room : GeneratedRoom) :
    Option ConstraintViolation :=
  let polygon := G.mkPolygon room.boundary
  if (!G.isValid polygon) || G.isEmpty polygon ||
      decide (G.area polygon ≤ 0) then
    some ⟨.ROOM_NOT_ENCLOSED,
      "Room " ++ room.name ++ " boundary is not a valid enclosed polygon.",
      .error, [room.name]⟩
  else none

/-- Enclosure violations appended by that same loop (the loop fills the dict
and appends violations; the two effects are independent). -/
def enclosureViolations {P : Type} (G : Geom P) (rooms : List GeneratedRoom) :
    List ConstraintViolation :=
  rooms.filterMap (enclosureCheck G)

/-- Room-overlap check: a plain nested loop over all unordered pairs; a pair
is skipped when a polygon is missing (`None`), empty (falsy in Shapely) or
invalid, and reported when the exact intersection area exceeds the fixed
10 000 mm² tolerance. -/
def roomOverlapCheck {P : Type} (G : Geom P)
    (room_polygons : List (String × P)) (pair : GeneratedRoom × GeneratedRoom) :
    Option ConstraintViolation :=
  match dictGet room_polygons pair.1.name, dictGet room_polygons pair.2.name with
  | some poly_a, some poly_b =>
      if G.isEmpty poly_a || G.isEmpty poly_b ||
          (!G.isValid poly_a) || (!G.isValid poly_b) then none
      else if decide (10000 < G.interArea poly_a poly_b) then
        some ⟨.ROOM_OVERLAP,
          pair.1.name ++ " and " ++ pair.2.name ++ " overlap by " ++
            toString (G.interArea poly_a poly_b / 1000000) ++ " sqm.",
          .error, [pair.1.name, pair.2.name]⟩
      else none
  | _, _ => none

def roomOverlapViolations {P : Type} (G : Geom P)
    (room_polygons : List (String × P)) (rooms : List GeneratedRoom) :
    List ConstraintViolation :=
  (pairsOf rooms).filterMap (roomOverlapCheck G room_polygons)

/-- Number of unordered room pairs on which the overlap check computes an
exact polygon intersection (the pairs that pass the missing/empty/invalid
guard).  There is no bounding-box prefilter in the source: every guarded
pair is intersected exactly. -/
def roomOverlapGuard {P : Type} (G : Geom P)
    (room_polygons : List (String × P)) (pair : GeneratedRoom × GeneratedRoom) :
    Bool :=
  match dictGet room_polygons pair.1.name, dictGet room_polygons pair.2.name with
  | some poly_a, some poly_b =>
      !(G.isEmpty poly_a || G.isEmpty poly_b ||
        (!G.isValid poly_a) || (!G.isValid poly_b))
  | _, _ => false

def roomOverlapExactChecks {P : Type} (G : Geom P)
    (room_polygons : List (String × P)) (rooms : List GeneratedRoom) : ℕ :=
  ((pairsOf rooms).filter (roomOverlapGuard G room_polygons)).length

/-- Corridor-width check: corridor-typed rooms whose polygon vanishes under
an inward buffer of 450 mm. -/
def corridorCheck {P : Type} (G : Geom P)
    (room_polygons : List (String × P)) (room : GeneratedRoom) :
    Option ConstraintViolation :=
  if room.room_type.toLower = "corridor" ∨ room.room_type.toLower = "hallway" ∨
      room.room_type.toLower = "passage" then
    match dictGet room_polygons room.name with
    | some poly =>
        if G.isEmpty poly || (!G.isValid poly) then none
        else if G.negBufferIsEmpty poly 450 then
          some ⟨.CORRIDOR_TOO_NARROW,
            room.name ++ " is narrower than 900mm at one or more points.",
            .error, [room.name]⟩
        else none
    | none => none
  else none

def corridorViolations {P : Type} (G : Geom P)
    (room_polygons : List (String × P)) (rooms : List GeneratedRoom) :
    List ConstraintViolation :=
  rooms.filterMap (corridorCheck G room_polygons)

/-- `_build_wall_index`: interior walls keyed by id, then perimeter walls
(sparse dicts coerced: missing coordinates default to 0, non-positive or
missing thickness to a minimal positive value). -/
def build_wall_index (layout : GeneratedLayout) : List (String × InteriorWall) :=
  let base := layout.interior_walls.foldl
    (fun acc wall => dictInsert acc wall.id wall) []
  layout.perimeter_walls.enum.foldl
    (fun acc iw =>
      let idx := iw.1 + 1
      let wall := iw.2
      let wall_id :=
        match dictGet wall "id" with
        | some v => pvalToString v
        | none => "perimeter_" ++ toString idx
      let thickness0 := as_float (dictGet wall "thickness_mm") 100
      let thickness_mm := if thickness0 ≤ 0 then 1 else thickness0
      dictInsert acc wall_id
        ⟨wall_id,
         as_float (dictGet wall "x1") 0, as_float (dictGet wall "y1") 0,
         as_float (dictGet wall "x2") 0, as_float (dictGet wall "y2") 0,
         thickness_mm,
         match dictGet wall "material" with
         | some v => pvalToString v
         | none => "drywall"⟩)
    base

/-- Buffered wall geometry for every wall in the unified index. -/
def wallGeometriesOf {P : Type} (G : Geom P)
    (wall_index : List (String × InteriorWall)) : List (String × P) :=
  wall_index.foldl
    (fun acc kv => dictInsert acc kv.1
      (G.wallPolygon kv.2.x1 kv.2.y1 kv.2.x2 kv.2.y2 kv.2.thickness_mm)) []

/-- Oriented fixture rectangles keyed by fixture id. -/
def fixtureGeometriesOf {P : Type} (G : Geom P) (fixtures : List Fixture) :
    List (String × P) :=
  fixtures.foldl (fun acc f => dictInsert acc f.id (G.fixturePolygon f)) []

/-- Door-swing check for one door: sliding doors are skipped entirely; an
unknown host wall is itself a violation; otherwise the first other wall
whose buffered geometry meets the swing sector wins and short-circuits,
and fixtures are only tested when no wall hit occurred. -/
def doorCheck {P : Type} (G : Geom P)
    (wall_index : List (String × InteriorWall))
    (wall_geometries fixture_geometries : List (String × P)) (door : Door) :
    List ConstraintViolation :=
  if door.door_type = .sliding ∨ door.swing_direction = .sliding then []
  else
    match dictGet wall_index door.wall_id with
    | none =>
        [⟨.DOOR_SWING_BLOCKED,
          "Door " ++ door.id ++ " references unknown wall " ++
            door.wall_id ++ ".",
          .error, [door.id, door.wall_id]⟩]
    | some host_wall =>
        let swing_arc := G.doorSwingArc host_wall door
        if G.isEmpty swing_arc then []
        else
          match wall_geometries.find? (fun kv =>
              decide (kv.1 ≠ door.wall_id) &&
              decide (0 < G.interArea swing_arc kv.2)) with
          | some kv =>
              [⟨.DOOR_SWING_BLOCKED,
                "Door " ++ door.id ++ " swing intersects wall " ++ kv.1 ++ ".",
                .error, [door.id, kv.1]⟩]
          | none =>
              match fixture_geometries.find? (fun kv =>
                  decide (0 < G.interArea swing_arc kv.2)) with
              | some kv =>
                  [⟨.DOOR_SWING_BLOCKED,
                    "Door " ++ door.id ++ " swing intersects fixture " ++
                      kv.1 ++ ".",
                    .error, [door.id, kv.1]⟩]
              | none => []

def listMax : List ℚ → ℚ
  | [] => 0
  | x :: xs => xs.foldl max x

def listMin : List ℚ → ℚ
  | [] => 0
  | x :: xs => xs.foldl min x

/-- `_perimeter_bbox_area_mm2`: bounding box of the all-numeric perimeter
walls (Python inserts NaN for missing or non-numeric values and filters on
`isfinite`, so exactly the all-numeric walls survive), falling back to the
page-dimension product when degenerate. -/
def perimeter_bbox_area_mm2 (layout : GeneratedLayout) : ℚ :=
  let coords : List (ℚ × ℚ × ℚ × ℚ) :=
    layout.perimeter_walls.filterMap (fun (wall : PerimWall) =>
      match dictGet wall "x1", dictGet wall "y1",
          dictGet wall "x2", dictGet wall "y2" with
      | some (PValue.num x1), some (PValue.num y1),
        some (PValue.num x2), some (PValue.num y2) =>
          some (x1, y1, x2, y2)
      | _, _, _, _ => none)
  let xs := coords.flatMap (fun c => [c.1, c.2.2.1])
  let ys := coords.flatMap (fun c => [c.2.1, c.2.2.2])
  match xs with
  | [] => layout.page_dimensions_mm.1 * layout.page_dimensions_mm.2
  | _ :: _ =>
      let width := listMax xs - listMin xs
      let height := listMax ys - listMin ys
      if 0 < width ∧ 0 < height then width * height
      else layout.page_dimensions_mm.1 * layout.page_dimensions_mm.2

/-- Perimeter-budget check: the valid rooms' total polygon area must not
exceed 105% of the perimeter bounding-box area. -/
def areaBudgetViolations {P : Type} (G : Geom P)
    (room_polygons : List (String × P)) (layout : GeneratedLayout) :
    List ConstraintViolation :=
  let total := layout.rooms.foldl
    (fun acc room =>
      match dictGet room_polygons room.name with
      | some poly =>
          if (!G.isEmpty poly) && G.isValid poly then acc + G.area poly else acc
      | none => acc) 0
  let perimeter_area := perimeter_bbox_area_mm2 layout
  if 0 < perimeter_area ∧ perimeter_area * (105/100) < total then
    [⟨.AREA_EXCEEDS_PERIMETER,
      "Total room area " ++ toString (total / 1000000) ++
        " sqm exceeds perimeter budget " ++
        toString (perimeter_area / 1000000) ++ " sqm.",
      .error, layout.rooms.map (fun r => r.name)⟩]
  else []

/-- The `room_by_name` dict (maps each room name to the polygon recorded for
that name, which with duplicate names is the last one). -/
def roomByNameOf {P : Type} (room_polygons : List (String × P))
    (rooms : List GeneratedRoom) : List (String × Option P) :=
  rooms.foldl
    (fun acc room => dictInsert acc room.name (dictGet room_polygons room.name))
    []

/-- Fixture-placement check: a fixture center not covered by its declared
room's polygon is a warning. -/
def fixturePlacementCheck {P : Type} (G : Geom P)
    (room_by_name : List (String × Option P)) (fixture : Fixture) :
    Option ConstraintViolation :=
  let viol : ConstraintViolation :=
    ⟨.FIXTURE_OUTSIDE_ROOM,
      "Fixture " ++ fixture.id ++ " center lies outside assigned room " ++
        fixture.room_name ++ ".",
      .warning, [fixture.id, fixture.room_name]⟩
  match dictGet room_by_name fixture.room_name with
  | none => some viol
  | some none => some viol
  | some (some room_poly) =>
      if (!G.isValid room_poly) ||
          (!G.covers room_poly (fixture.center_x, fixture.center_y)) then
        some viol
      else none

def fixturePlacementViolations {P : Type} (G : Geom P)
    (room_by_name : List (String × Option P)) (fixtures : List Fixture) :
    List ConstraintViolation :=
  fixtures.filterMap (fixturePlacementCheck G room_by_name)

/-- `defaultdict(list)` grouping of fixtures by room, keys in first-seen
order, fixtures in list order. -/
def fixturesByRoom (fixtures : List Fixture) : List (String × List Fixture) :=
  fixtures.foldl
    (fun acc f =>
      if acc.any (fun kv => decide (kv.1 = f.room_name)) then
        acc.map (fun kv =>
          if kv.1 = f.room_name then (kv.1, kv.2 ++ [f]) else kv)
      else acc ++ [(f.room_name, [f])])
    []

/-- Fixture-overlap check within each room (warning).  Python indexes
`fixture_geometries[id]` directly; the key is always present, so the
missing-key branch is unreachable. -/
def fixtureOverlapCheck {P : Type} (G : Geom P)
    (fixture_geometries : List (String × P)) (room_name : String)
    (pair : Fixture × Fixture) : Option ConstraintViolation :=
  match dictGet fixture_geometries pair.1.id,
      dictGet fixture_geometries pair.2.id with
  | some poly_a, some poly_b =>
      if decide (0 < G.interArea poly_a poly_b) then
        some ⟨.FIXTURE_OVERLAP,
          "Fixtures " ++ pair.1.id ++ " and " ++ pair.2.id ++
            " overlap in room " ++ room_name ++ ".",
          .warning, [pair.1.id, pair.2.id, room_name]⟩
      else none
  | _, _ => none

def fixtureOverlapViolations {P : Type} (G : Geom P)
    (fixture_geometries : List (String × P)) (fixtures : List Fixture) :
    List ConstraintViolation :=
  (fixturesByRoom fixtures).flatMap (fun kv =>
    (pairsOf kv.2).filterMap (fixtureOverlapCheck G fixture_geometries kv.1))

/-- `validate_layout` from `app/services/constraint_checker.py`, parametric
in the geometry kernel. -/
def validate_layout {P : Type} (G : Geom P) (layout : GeneratedLayout) :
    ConstraintResult :=
  let no_rooms : List ConstraintViolation :=
    if layout.rooms.isEmpty then
      [⟨.ROOM_NOT_ENCLOSED, "Layout contains no generated rooms.",
        .error, []⟩]
    else []
  let room_polygons := roomPolygonsOf G layout.rooms
  let wall_index := build_wall_index layout
  let wall_geometries := wallGeometriesOf G wall_index
  let fixture_geometries := fixtureGeometriesOf G layout.fixtures
  let violations :=
    no_rooms ++ enclosureViolations G layout.rooms ++
    roomOverlapViolations G room_polygons layout.rooms ++
    corridorViolations G room_polygons layout.rooms ++
    layout.doors.flatMap
      (doorCheck G wall_index wall_geometries fixture_geometries) ++
    areaBudgetViolations G room_polygons layout ++
    fixturePlacementViolations G (roomByNameOf room_polygons layout.rooms)
      layout.fixtures ++
    fixtureOverlapViolations G fixture_geometries layout.fixtures
  let error_count := violations.countP (fun v => decide (v.severity = .error))
  let warning_count := violations.length - error_count
  ⟨decide (error_count = 0), violations,
   toString error_count ++ " errors, " ++ toString warning_count ++ " warnings"⟩

/-!  ## Concrete kernel: axis-aligned rectangles

A concrete, computable `Geom` instance whose polygons are vertex lists.
On the shapes used by the concrete layouts below (axis-aligned rectangle
rings and empty lists) the operations return exactly what Shapely
computes: bounding-box arithmetic is exact for axis-aligned rectangles. -/

def bboxMinX (b : List (ℚ × ℚ)) : ℚ := listMin (b.map Prod.fst)

def bboxMaxX (b : List (ℚ × ℚ)) : ℚ := listMax (b.map Prod.fst)

def bboxMinY (b : List (ℚ × ℚ)) : ℚ := listMin (b.map Prod.snd)

def bboxMaxY (b : List (ℚ × ℚ)) : ℚ := listMax (b.map Prod.snd)

/-- Area of an axis-aligned rectangle ring (0 for the empty polygon). -/
def rectArea (b : List (ℚ × ℚ)) : ℚ :=
  if b.isEmpty then 0 else (bboxMaxX b - bboxMinX b) * (bboxMaxY b - bboxMinY b)

/-- Intersection area of two axis-aligned rectangle rings. -/
def rectInterArea (a b : List (ℚ × ℚ)) : ℚ :=
  if a.isEmpty || b.isEmpty then 0
  else
    let w := min (bboxMaxX a) (bboxMaxX b) - max (bboxMinX a) (bboxMinX b)
    let h := min (bboxMaxY a) (bboxMaxY b) - max (bboxMinY a) (bboxMinY b)
    if 0 < w ∧ 0 < h then w * h else 0

lemma rectInterArea_comm (a b : List (ℚ × ℚ)) :
    rectInterArea a b = rectInterArea b a := by
  unfold rectInterArea
  rw [min_comm (bboxMaxX a), max_comm (bboxMinX a),
    min_comm (bboxMaxY a), max_comm (bboxMinY a), Bool.or_comm]

/-- The concrete rectangle kernel.  `wallPolygon` is exact for axis-aligned
segments (a flat-capped mitre-joined buffer of a segment is the rectangle
around it) and `doorSwingArc` returns the hinge-anchored square spanned by
the swing radius — a stand-in whose only role is to drive the door-check
control flow in concrete instances. -/
def rectGeom : Geom (List (ℚ × ℚ)) :=
  { mkPolygon := id
    isValid := fun _ => true
    isEmpty := fun b => b.isEmpty
    area := rectArea
    interArea := rectInterArea
    negBufferIsEmpty := fun b d =>
      decide (bboxMaxX b - bboxMinX b ≤ 2 * d ∨
        bboxMaxY b - bboxMinY b ≤ 2 * d)
    wallPolygon := fun x1 y1 x2 y2 t =>
      if x1 = x2 ∧ y1 = y2 then []
      else
        let h := max t 1 / 2
        if x1 = x2 then
          [(x1 - h, min y1 y2), (x1 + h, min y1 y2),
           (x1 + h, max y1 y2), (x1 - h, max y1 y2), (x1 - h, min y1 y2)]
        else if y1 = y2 then
          [(min x1 x2, y1 - h), (max x1 x2, y1 - h),
           (max x1 x2, y1 + h), (min x1 x2, y1 + h), (min x1 x2, y1 - h)]
        else []
    fixturePolygon := fun f =>
      if f.rotation_deg = 0 then
        [(f.center_x - f.width_mm / 2, f.center_y - f.depth_mm / 2),
         (f.center_x + f.width_mm / 2, f.center_y - f.depth_mm / 2),
         (f.center_x + f.width_mm / 2, f.center_y + f.depth_mm / 2),
         (f.center_x - f.width_mm / 2, f.center_y + f.depth_mm / 2),
         (f.center_x - f.width_mm / 2, f.center_y - f.depth_mm / 2)]
      else []
    doorSwingArc := fun w d =>
      if w.x1 = w.x2 ∧ w.y1 = w.y2 then []
      else
        let hx := w.x1 + d.position_along_wall * (w.x2 - w.x1)
        let hy := w.y1 + d.position_along_wall * (w.y2 - w.y1)
        let r := d.width_mm
        [(hx, hy), (hx + r, hy), (hx + r, hy + r), (hx, hy + r), (hx, hy)]
    covers := fun b p =>
      !b.isEmpty &&
        decide (bboxMinX b ≤ p.1 ∧ p.1 ≤ bboxMaxX b ∧
          bboxMinY b ≤ p.2 ∧ p.2 ≤ bboxMaxY b) }

/-!  ## Association-list (Python dict) lemmas  -/

lemma dictGet_insert_self {α : Type} (d : List (String × α)) (k : String)
    (v : α) : dictGet (dictInsert d k v) k = some v := by
  unfold dictInsert
  by_cases hc : d.any (fun kv => decide (kv.1 = k))
  · rw [if_pos hc]
    induction d with
    | nil => simp at hc
    | cons x xs ih =>
        by_cases hx : x.1 = k
        · simp [dictGet, hx]
        · simp only [List.map_cons, if_neg hx]
          rw [dictGet]
          rw [List.find?_cons_of_neg _ (by simpa using hx)]
          have hc' : xs.any (fun kv => decide (kv.1 = k)) := by
            simp only [List.any_cons, hx] at hc
            simpa using hc
          exact ih hc'
  · rw [if_neg hc]
    induction d with
    | nil => simp [dictGet]
    | cons x xs ih =>
        have hx : ¬ x.1 = k := by
          intro h
          exact hc (by simp [List.any_cons, h])
        rw [List.cons_append, dictGet,
          List.find?_cons_of_neg _ (by simpa using hx)]
        have hc' : ¬ xs.any (fun kv => decide (kv.1 = k)) := by
          intro h
          exact hc (by simp [List.any_cons, h])
        exact ih hc'

lemma dictGet_insert_ne {α : Type} (d : List (String × α)) (k k' : String)
    (v : α) (h : k' ≠ k) : dictGet (dictInsert d k v) k' = dictGet d k' := by
  unfold dictInsert
  by_cases hc : d.any (fun kv => decide (kv.1 = k))
  · rw [if_pos hc]
    induction d with
    | nil => simp
    | cons x xs ih =>
        by_cases hx : x.1 = k
        · rw [List.map_cons, if_pos hx, dictGet, dictGet,
            List.find?_cons_of_neg _ (by simpa using Ne.symm h),
            List.find?_cons_of_neg _
              (by simpa using fun hk => h (Eq.symm (hx ▸ hk)))]
          by_cases hcx : xs.any (fun kv => decide (kv.1 = k))
          · exact ih hcx
          · -- no further occurrence of k in xs: the map fixes xs
            have hfix : xs.map (fun kv => if kv.1 = k then (k, v) else kv) = xs := by
              apply list_map_self
              intro y hy
              have hyk : ¬ y.1 = k := by
                intro hk
                apply hcx
                simp only [List.any_eq_true]
                exact ⟨y, hy, by simpa using hk⟩
              simp [hyk]
            rw [hfix]
        · rw [List.map_cons, if_neg hx, dictGet, dictGet]
          by_cases hxk : x.1 = k'
          · rw [List.find?_cons_of_pos _ (by simpa using hxk),
              List.find?_cons_of_pos _ (by simpa using hxk)]
          · rw [List.find?_cons_of_neg _ (by simpa using hxk),
              List.find?_cons_of_neg _ (by simpa using hxk)]
            have hc' : xs.any (fun kv => decide (kv.1 = k)) := by
              simp only [List.any_cons, hx] at hc
              simpa using hc
            exact ih hc'
  · rw [if_neg hc, dictGet, dictGet, List.find?_append]
    have : List.find? (fun kv => decide (kv.1 = k')) [(k, v)] = none := by
      simp [h.symm]
    rw [this]
    simp

/-!  ## Lemmas about the constraint-engine sections  -/

lemma pairsOf_mem {α : Type} (l : List α) (p : α × α) (h : p ∈ pairsOf l) :
    p.1 ∈ l ∧ p.2 ∈ l := by
  induction l with
  | nil => cases h
  | cons x xs ih =>
      rw [pairsOf, List.mem_append] at h
      rcases h with h | h
      · rcases List.mem_map.mp h with ⟨y, hy, rfl⟩
        exact ⟨List.mem_cons_self _ _, List.mem_cons_of_mem _ hy⟩
      · rcases ih h with ⟨h1, h2⟩
        exact ⟨List.mem_cons_of_mem _ h1, List.mem_cons_of_mem _ h2⟩

lemma nodup_map_inj {α β : Type} (f : α → β) (l : List α)
    (h : (l.map f).Nodup) (x y : α) (hx : x ∈ l) (hy : y ∈ l)
    (hf : f x = f y) : x = y := by
  induction l with
  | nil => cases hx
  | cons a t ih =>
      rw [List.map_cons, List.nodup_cons] at h
      rcases List.mem_cons.mp hx with rfl | hx'
      · rcases List.mem_cons.mp hy with rfl | hy'
        · rfl
        · exact absurd (hf ▸ List.mem_map_of_mem f hy') h.1
      · rcases List.mem_cons.mp hy with rfl | hy'
        · exact absurd (hf ▸ List.mem_map_of_mem f hx') (by
            intro hc
            exact h.1 hc)
        · exact ih h.2 hx' hy'

lemma foldl_dictInsert_get_notmem {β : Type} (f : GeneratedRoom → β)
    (rooms : List GeneratedRoom) (acc : List (String × β)) (k : String)
    (h : ∀ r ∈ rooms, r.name ≠ k) :
    dictGet (rooms.foldl (fun a room => dictInsert a room.name (f room)) acc) k
      = dictGet acc k := by
  induction rooms generalizing acc with
  | nil => rfl
  | cons x xs ih =>
      rw [List.foldl_cons,
        ih _ (fun r hr => h r (List.mem_cons_of_mem _ hr))]
      exact dictGet_insert_ne acc x.name k (f x)
        (Ne.symm (h x (List.mem_cons_self _ _)))

lemma foldl_dictInsert_get_mem {β : Type} (f : GeneratedRoom → β)
    (rooms : List GeneratedRoom) (acc : List (String × β))
    (r : GeneratedRoom) (hr : r ∈ rooms)
    (hnodup : (rooms.map GeneratedRoom.name).Nodup) :
    dictGet (rooms.foldl (fun a room => dictInsert a room.name (f room)) acc)
      r.name = some (f r) := by
  induction rooms generalizing acc with
  | nil => cases hr
  | cons x xs ih =>
      rw [List.map_cons, List.nodup_cons] at hnodup
      rw [List.foldl_cons]
      rcases List.mem_cons.mp hr with rfl | hr'
      · have hnot : ∀ s ∈ xs, s.name ≠ r.name := by
          intro s hs he
          exact hnodup.1 (he ▸ List.mem_map_of_mem GeneratedRoom.name hs)
        rw [foldl_dictInsert_get_notmem f xs _ r.name hnot,
          dictGet_insert_self]
      · exact ih _ hr' hnodup.2

lemma roomPolygonsOf_get {P : Type} (G : Geom P) (rooms : List GeneratedRoom)
    (hnodup : (rooms.map GeneratedRoom.name).Nodup) (r : GeneratedRoom)
    (hr : r ∈ rooms) :
    dictGet (roomPolygonsOf G rooms) r.name = some (G.mkPolygon r.boundary) :=
  foldl_dictInsert_get_mem (fun room => G.mkPolygon room.boundary) rooms [] r
    hr hnodup

lemma mem_enclosure_type {P : Type} (G : Geom P) (rooms : List GeneratedRoom)
    (v : ConstraintViolation) (h : v ∈ enclosureViolations G rooms) :
    v.type = .ROOM_NOT_ENCLOSED := by
  obtain ⟨r, _, hr⟩ := List.mem_filterMap.mp h
  unfold enclosureCheck at hr
  dsimp only at hr
  split at hr
  · cases hr
    rfl
  · cases hr

lemma mem_overlap_type {P : Type} (G : Geom P)
    (room_polygons : List (String × P)) (rooms : List GeneratedRoom)
    (v : ConstraintViolation)
    (h : v ∈ roomOverlapViolations G room_polygons rooms) :
    v.type = .ROOM_OVERLAP := by
  obtain ⟨p, _, hp⟩ := List.mem_filterMap.mp h
  unfold roomOverlapCheck at hp
  split at hp
  · split at hp
    · cases hp
    · split at hp
      · cases hp
        rfl
      · cases hp
  · cases hp

lemma mem_corridor_type {P : Type} (G : Geom P)
    (room_polygons : List (String × P)) (rooms : List GeneratedRoom)
    (v : ConstraintViolation)
    (h : v ∈ corridorViolations G room_polygons rooms) :
    v.type = .CORRIDOR_TOO_NARROW := by
  obtain ⟨r, _, hr⟩ := List.mem_filterMap.mp h
  unfold corridorCheck at hr
  split at hr
  · split at hr
    · split at hr
      · cases hr
      · split at hr
        · cases hr
          rfl
        · cases hr
    · cases hr
  · cases hr

lemma mem_doorCheck_type {P : Type} (G : Geom P)
    (wall_index : List (String × InteriorWall))
    (wall_geometries fixture_geometries : List (String × P)) (door : Door)
    (v : ConstraintViolation)
    (h : v ∈ doorCheck G wall_index wall_geometries fixture_geometries door) :
    v.type = .DOOR_SWING_BLOCKED := by
  dsimp only [doorCheck] at h
  split at h
  · cases h
  · split at h
    · rw [List.mem_singleton] at h
      subst h
      rfl
    · split at h
      · cases h
      · split at h
        · rw [List.mem_singleton] at h
          subst h
          rfl
        · split at h
          · rw [List.mem_singleton] at h
            subst h
            rfl
          · cases h

lemma mem_areaBudget_type {P : Type} (G : Geom P)
    (room_polygons : List (String × P)) (layout : GeneratedLayout)
    (v : ConstraintViolation)
    (h : v ∈ areaBudgetViolations G room_polygons layout) :
    v.type = .AREA_EXCEEDS_PERIMETER := by
  dsimp only [areaBudgetViolations] at h
  split at h
  · rw [List.mem_singleton] at h
    subst h
    rfl
  · cases h

lemma mem_placement_type {P : Type} (G : Geom P)
    (room_by_name : List (String × Option P)) (fixtures : List Fixture)
    (v : ConstraintViolation)
    (h : v ∈ fixturePlacementViolations G room_by_name fixtures) :
    v.type = .FIXTURE_OUTSIDE_ROOM := by
  obtain ⟨f, _, hf⟩ := List.mem_filterMap.mp h
  unfold fixturePlacementCheck at hf
  split at hf
  · cases hf
    rfl
  · cases hf
    rfl
  · split at hf
    · cases hf
      rfl
    · cases hf

lemma mem_fixtureOverlap_type {P : Type} (G : Geom P)
    (fixture_geometries : List (String × P)) (fixtures : List Fixture)
    (v : ConstraintViolation)
    (h : v ∈ fixtureOverlapViolations G fixture_geometries fixtures) :
    v.type = .FIXTURE_OVERLAP := by
  obtain ⟨kv, _, hkv⟩ := List.mem_flatMap.mp h
  obtain ⟨p, _, hp⟩ := List.mem_filterMap.mp hkv
  unfold fixtureOverlapCheck at hp
  split at hp
  · split at hp
    · cases hp
      rfl
    · cases hp
  · cases hp

/-- The violation list of `validate_layout` is the concatenation of its
sections, in source order. -/
lemma validate_layout_violations {P : Type} (G : Geom P)
    (layout : GeneratedLayout) :
    (validate_layout G layout).violations =
      (if layout.rooms.isEmpty then
        [⟨.ROOM_NOT_ENCLOSED, "Layout contains no generated rooms.",
          .error, []⟩]
      else []) ++
      enclosureViolations G layout.rooms ++
      roomOverlapViolations G (roomPolygonsOf G layout.rooms) layout.rooms ++
      corridorViolations G (roomPolygonsOf G layout.rooms) layout.rooms ++
      layout.doors.flatMap
        (doorCheck G (build_wall_index layout)
          (wallGeometriesOf G (build_wall_index layout))
          (fixtureGeometriesOf G layout.fixtures)) ++
      areaBudgetViolations G (roomPolygonsOf G layout.rooms) layout ++
      fixturePlacementViolations G
        (roomByNameOf (roomPolygonsOf G layout.rooms) layout.rooms)
        layout.fixtures ++
      fixtureOverlapViolations G (fixtureGeometriesOf G layout.fixtures)
        layout.fixtures := rfl

/-- C2 (amended): with pairwise-distinct room names, for every unordered pair
of rooms whose boundaries form valid, non-degenerate polygons, a
ROOM_OVERLAP error naming the pair is emitted iff the pair's polygon
intersection area exceeds 10 000 mm²; the area condition is symmetric in
the pair order (`hsymm` is the mathematical symmetry of intersection
area, which Shapely satisfies). -/
theorem room_overlap_iff_tolerance {P : Type} (G : Geom P)
    (layout : GeneratedLayout)
    (hsymm : ∀ p q, G.interArea p q = G.interArea q p)
    (hnodup : (layout.rooms.map GeneratedRoom.name).Nodup)
    (ra rb : GeneratedRoom) (hpair : (ra, rb) ∈ pairsOf layout.rooms)
    (hva : G.isValid (G.mkPolygon ra.boundary) = true)
    (hvb : G.isValid (G.mkPolygon rb.boundary) = true)
    (hea : G.isEmpty (G.mkPolygon ra.boundary) = false)
    (heb : G.isEmpty (G.mkPolygon rb.boundary) = false) :
    ((∃ v ∈ (validate_layout G layout).violations,
        v.type = .ROOM_OVERLAP ∧ v.severity = .error ∧
        v.affected_elements = [ra.name, rb.name]) ↔
      10000 < G.interArea (G.mkPolygon ra.boundary) (G.mkPolygon rb.boundary)) ∧
    (10000 < G.interArea (G.mkPolygon ra.boundary) (G.mkPolygon rb.boundary) ↔
      10000 < G.interArea (G.mkPolygon rb.boundary) (G.mkPolygon ra.boundary)) := by
  have hmem := pairsOf_mem layout.rooms (ra, rb) hpair
  have hga := roomPolygonsOf_get G layout.rooms hnodup ra hmem.1
  have hgb := roomPolygonsOf_get G layout.rooms hnodup rb hmem.2
  constructor
  · constructor
    · rintro ⟨v, hv, htype, hsev, haff⟩
      rw [validate_layout_violations] at hv
      simp only [List.mem_append] at hv
      rcases hv with (((((((hv | hv) | hv) | hv) | hv) | hv) | hv) | hv)
      · split at hv
        · rw [List.mem_singleton] at hv
          subst hv
          exact absurd htype (by decide)
        · cases hv
      · have ht := mem_enclosure_type G layout.rooms v hv
        rw [htype] at ht
        exact absurd ht (by decide)
      · -- the genuine overlap section
        obtain ⟨pr, hprmem, hpr⟩ := List.mem_filterMap.mp hv
        unfold roomOverlapCheck at hpr
        split at hpr
        · rename_i poly_a poly_b heqa heqb
          split at hpr
          · cases hpr
          · split at hpr
            · rename_i hguard hcond
              rw [Option.some_inj] at hpr
              subst hpr
              simp only at haff
              have hnames := List.cons_eq_cons.mp haff
              have hnames2 := List.cons_eq_cons.mp hnames.2
              have hprmem2 := pairsOf_mem layout.rooms pr hprmem
              have h1 : pr.1 = ra :=
                nodup_map_inj GeneratedRoom.name layout.rooms hnodup pr.1 ra
                  hprmem2.1 hmem.1 hnames.1
              have h2 : pr.2 = rb :=
                nodup_map_inj GeneratedRoom.name layout.rooms hnodup pr.2 rb
                  hprmem2.2 hmem.2 hnames2.1
              rw [h1] at heqa
              rw [h2] at heqb
              rw [hga, Option.some_inj] at heqa
              rw [hgb, Option.some_inj] at heqb
              have hlt := of_decide_eq_true hcond
              rw [← heqa, ← heqb] at hlt
              exact hlt
            · cases hpr
        · cases hpr
      · have ht := mem_corridor_type G _ layout.rooms v hv
        rw [htype] at ht
        exact absurd ht (by decide)
      · obtain ⟨d, _, hd⟩ := List.mem_flatMap.mp hv
        have ht := mem_doorCheck_type G _ _ _ d v hd
        rw [htype] at ht
        exact absurd ht (by decide)
      · have ht := mem_areaBudget_type G _ layout v hv
        rw [htype] at ht
        exact absurd ht (by decide)
      · have ht := mem_placement_type G _ layout.fixtures v hv
        rw [htype] at ht
        exact absurd ht (by decide)
      · have ht := mem_fixtureOverlap_type G _ layout.fixtures v hv
        rw [htype] at ht
        exact absurd ht (by decide)
    · intro harea
      refine ⟨⟨.ROOM_OVERLAP,
        ra.name ++ " and " ++ rb.name ++ " overlap by " ++
          toString (G.interArea (G.mkPolygon ra.boundary)
            (G.mkPolygon rb.boundary) / 1000000) ++ " sqm.",
        .error, [ra.name, rb.name]⟩, ?_, rfl, rfl, rfl⟩
      rw [validate_layout_violations]
      simp only [List.mem_append]
      refine Or.inl (Or.inl (Or.inl (Or.inl (Or.inl (Or.inr ?_)))))
      refine List.mem_filterMap.mpr ⟨(ra, rb), hpair, ?_⟩
      unfold roomOverlapCheck
      dsimp only
      rw [hga, hgb]
      dsimp only
      have hguard : (G.isEmpty (G.mkPolygon ra.boundary) ||
          G.isEmpty (G.mkPolygon rb.boundary) ||
          !G.isValid (G.mkPolygon ra.boundary) ||
          !G.isValid (G.mkPolygon rb.boundary)) = false := by
        rw [hea, heb, hva, hvb]
        rfl
      rw [hguard, if_neg Bool.false_ne_true,
        if_pos (decide_eq_true harea)]
  · rw [hsymm (G.mkPolygon ra.boundary) (G.mkPolygon rb.boundary)]

def dupBoundary1 : List (ℚ × ℚ) :=
  [(0, 0), (1000, 0), (1000, 1000), (0, 1000), (0, 0)]

def dupBoundary2 : List (ℚ × ℚ) :=
  [(5000, 5000), (5200, 5000), (5200, 5200), (5000, 5200), (5000, 5000)]

def dupRoom1 : GeneratedRoom := ⟨"A", "operatory", dupBoundary1, 1⟩

def dupRoom2 : GeneratedRoom := ⟨"A", "operatory", dupBoundary2, 1⟩

/-- Two distinct, geometrically disjoint rooms that share the name "A". -/
def dupNamesLayout : GeneratedLayout :=
  { rooms := [dupRoom1, dupRoom2]
    interior_walls := []
    doors := []
    fixtures := []
    grid_size_mm := 50
    prompt := "p"
    perimeter_walls := []
    page_dimensions_mm := (10000, 10000) }

/-- C2 counterexample: room polygons are indexed by room *name*, so with two
disjoint rooms both named "A" the overlap check compares the second room's
polygon with itself and emits a ROOM_OVERLAP violation although the
intersection area of the pair is 0 — the claimed iff fails. -/
theorem room_overlap_duplicate_names_cex :
    (∃ v ∈ (validate_layout rectGeom dupNamesLayout).violations,
      v.type = .ROOM_OVERLAP ∧ v.severity = .error ∧
      v.affected_elements = ["A", "A"]) ∧
    rectGeom.interArea (rectGeom.mkPolygon dupRoom1.boundary)
      (rectGeom.mkPolygon dupRoom2.boundary) = 0 ∧
    rectGeom.isValid (rectGeom.mkPolygon dupRoom1.boundary) = true ∧
    rectGeom.isValid (rectGeom.mkPolygon dupRoom2.boundary) = true ∧
    rectGeom.isEmpty (rectGeom.mkPolygon dupRoom1.boundary) = false ∧
    rectGeom.isEmpty (rectGeom.mkPolygon dupRoom2.boundary) = false := by
  have h40 : (10000 : ℚ) < rectInterArea dupBoundary2 dupBoundary2 := by
    norm_num [rectInterArea, bboxMaxX, bboxMinX, bboxMaxY, bboxMinY,
      listMax, listMin, dupBoundary2, max_def, min_def,
      List.foldl_cons, List.foldl_nil]
  have hd : dictGet (roomPolygonsOf rectGeom dupNamesLayout.rooms) "A" =
      some dupBoundary2 := by rfl
  have hname1 : dupRoom1.name = "A" := rfl
  have hname2 : dupRoom2.name = "A" := rfl
  have hceq : roomOverlapCheck rectGeom
      (roomPolygonsOf rectGeom dupNamesLayout.rooms) (dupRoom1, dupRoom2) =
      some ⟨.ROOM_OVERLAP,
        "A" ++ " and " ++ "A" ++ " overlap by " ++
          toString (rectGeom.interArea dupBoundary2 dupBoundary2 / 1000000) ++
          " sqm.",
        .error, ["A", "A"]⟩ := by
    unfold roomOverlapCheck
    dsimp only
    rw [hname1, hname2, hd]
    dsimp only
    have hg : (rectGeom.isEmpty dupBoundary2 || rectGeom.isEmpty dupBoundary2 ||
        !rectGeom.isValid dupBoundary2 || !rectGeom.isValid dupBoundary2) =
        false := rfl
    rw [hg, if_neg Bool.false_ne_true, if_pos (decide_eq_true
      (show (10000 : ℚ) < rectGeom.interArea dupBoundary2 dupBoundary2
        from h40))]
  refine ⟨?_, ?_, rfl, rfl, rfl, rfl⟩
  · refine ⟨⟨.ROOM_OVERLAP,
      "A" ++ " and " ++ "A" ++ " overlap by " ++
        toString (rectGeom.interArea dupBoundary2 dupBoundary2 / 1000000) ++
        " sqm.",
      .error, ["A", "A"]⟩, ?_, rfl, rfl, rfl⟩
    rw [validate_layout_violations]
    simp only [List.mem_append]
    refine Or.inl (Or.inl (Or.inl (Or.inl (Or.inl (Or.inr ?_)))))
    exact List.mem_filterMap.mpr
      ⟨(dupRoom1, dupRoom2), by simp [pairsOf], hceq⟩
  · norm_num [rectGeom, rectInterArea, bboxMaxX, bboxMinX, bboxMaxY, bboxMinY,
      listMax, listMin, dupRoom1, dupRoom2, dupBoundary1, dupBoundary2,
      max_def, min_def, List.foldl_cons, List.foldl_nil]

def wBoundaryA : List (ℚ × ℚ) :=
  [(0, 0), (2000, 0), (2000, 2000), (0, 2000), (0, 0)]

def wBoundaryB : List (ℚ × ℚ) :=
  [(1000, 1000), (3000, 1000), (3000, 3000), (1000, 3000), (1000, 1000)]

def wOverlapRoomA : GeneratedRoom := ⟨"A", "operatory", wBoundaryA, 4⟩

def wOverlapRoomB : GeneratedRoom := ⟨"B", "operatory", wBoundaryB, 4⟩

/-- Two properly-named rooms overlapping by 1 m². -/
def wOverlapLayout : GeneratedLayout :=
  { rooms := [wOverlapRoomA, wOverlapRoomB]
    interior_walls := []
    doors := []
    fixtures := []
    grid_size_mm := 50
    prompt := "p"
    perimeter_walls := []
    page_dimensions_mm := (10000, 10000) }

/-- Witness for the amended C2 theorem on a concrete overlapping pair. -/
theorem room_overlap_iff_tolerance_witness :
    (wOverlapLayout.rooms.map GeneratedRoom.name).Nodup ∧
    (wOverlapRoomA, wOverlapRoomB) ∈ pairsOf wOverlapLayout.rooms ∧
    (((∃ v ∈ (validate_layout rectGeom wOverlapLayout).violations,
        v.type = .ROOM_OVERLAP ∧ v.severity = .error ∧
        v.affected_elements = [wOverlapRoomA.name, wOverlapRoomB.name]) ↔
      10000 < rectGeom.interArea (rectGeom.mkPolygon wOverlapRoomA.boundary)
        (rectGeom.mkPolygon wOverlapRoomB.boundary)) ∧
    (10000 < rectGeom.interArea (rectGeom.mkPolygon wOverlapRoomA.boundary)
        (rectGeom.mkPolygon wOverlapRoomB.boundary) ↔
      10000 < rectGeom.interArea (rectGeom.mkPolygon wOverlapRoomB.boundary)
        (rectGeom.mkPolygon wOverlapRoomA.boundary))) := by
  refine ⟨?_, ?_, ?_⟩
  · simp [wOverlapLayout, wOverlapRoomA, wOverlapRoomB]
  · simp [wOverlapLayout, pairsOf]
  · exact room_overlap_iff_tolerance rectGeom wOverlapLayout
      (fun p q => rectInterArea_comm p q)
      (by simp [wOverlapLayout, wOverlapRoomA, wOverlapRoomB])
      wOverlapRoomA wOverlapRoomB
      (by simp [wOverlapLayout, pairsOf])
      rfl rfl rfl rfl

/-- C5: sliding doors (by door type or swing direction) are skipped before
any check and never contribute a DOOR_SWING_BLOCKED violation; every
DOOR_SWING_BLOCKED violation of `validate_layout` comes from the per-door
check; and a hinged door on a known wall whose swing sector meets some
other wall's buffered geometry yields exactly one violation naming the
door and the first such wall, with no fixture violation for that door. -/
theorem door_swing_sliding_skip_and_first_wall_hit {P : Type} (G : Geom P)
    (layout : GeneratedLayout) :
    (∀ d : Door, (d.door_type = .sliding ∨ d.swing_direction = .sliding) →
      doorCheck G (build_wall_index layout)
        (wallGeometriesOf G (build_wall_index layout))
        (fixtureGeometriesOf G layout.fixtures) d = []) ∧
    ((validate_layout G layout).violations.filter
        (fun v => decide (v.type = .DOOR_SWING_BLOCKED)) =
      layout.doors.flatMap
        (doorCheck G (build_wall_index layout)
          (wallGeometriesOf G (build_wall_index layout))
          (fixtureGeometriesOf G layout.fixtures))) ∧
    (∀ d : Door, ∀ host : InteriorWall,
      ¬(d.door_type = .sliding ∨ d.swing_direction = .sliding) →
      dictGet (build_wall_index layout) d.wall_id = some host →
      G.isEmpty (G.doorSwingArc host d) = false →
      (∃ kv ∈ wallGeometriesOf G (build_wall_index layout),
        kv.1 ≠ d.wall_id ∧ 0 < G.interArea (G.doorSwingArc host d) kv.2) →
      ∃ w wp,
        (wallGeometriesOf G (build_wall_index layout)).find?
          (fun kv => decide (kv.1 ≠ d.wall_id) &&
            decide (0 < G.interArea (G.doorSwingArc host d) kv.2)) =
          some (w, wp) ∧
        w ≠ d.wall_id ∧ 0 < G.interArea (G.doorSwingArc host d) wp ∧
        doorCheck G (build_wall_index layout)
          (wallGeometriesOf G (build_wall_index layout))
          (fixtureGeometriesOf G layout.fixtures) d =
          [⟨.DOOR_SWING_BLOCKED,
            "Door " ++ d.id ++ " swing intersects wall " ++ w ++ ".",
            .error, [d.id, w]⟩]) := by
  refine ⟨?_, ?_, ?_⟩
  · intro d hd
    unfold doorCheck
    rw [if_pos hd]
  · rw [validate_layout_violations]
    simp only [List.filter_append]
    have h0 : List.filter
        (fun v => decide (v.type = ConstraintViolationType.DOOR_SWING_BLOCKED))
        (if layout.rooms.isEmpty then
          [⟨.ROOM_NOT_ENCLOSED, "Layout contains no generated rooms.",
            .error, []⟩]
        else ([] : List ConstraintViolation)) = [] := by
      split <;> rfl
    have h1 : List.filter
        (fun v => decide (v.type = ConstraintViolationType.DOOR_SWING_BLOCKED))
        (enclosureViolations G layout.rooms) = [] :=
      List.filter_eq_nil_iff.mpr (fun v hv => by
        have := mem_enclosure_type G layout.rooms v hv
        simp [this])
    have h2 : List.filter
        (fun v => decide (v.type = ConstraintViolationType.DOOR_SWING_BLOCKED))
        (roomOverlapViolations G (roomPolygonsOf G layout.rooms)
          layout.rooms) = [] :=
      List.filter_eq_nil_iff.mpr (fun v hv => by
        have := mem_overlap_type G (roomPolygonsOf G layout.rooms)
          layout.rooms v hv
        simp [this])
    have h3 : List.filter
        (fun v => decide (v.type = ConstraintViolationType.DOOR_SWING_BLOCKED))
        (corridorViolations G (roomPolygonsOf G layout.rooms)
          layout.rooms) = [] :=
      List.filter_eq_nil_iff.mpr (fun v hv => by
        have := mem_corridor_type G (roomPolygonsOf G layout.rooms)
          layout.rooms v hv
        simp [this])
    have h4 : List.filter
        (fun v => decide (v.type = ConstraintViolationType.DOOR_SWING_BLOCKED))
        (layout.doors.flatMap
          (doorCheck G (build_wall_index layout)
            (wallGeometriesOf G (build_wall_index layout))
            (fixtureGeometriesOf G layout.fixtures))) =
        layout.doors.flatMap
          (doorCheck G (build_wall_index layout)
            (wallGeometriesOf G (build_wall_index layout))
            (fixtureGeometriesOf G layout.fixtures)) :=
      List.filter_eq_self.mpr (fun v hv => by
        obtain ⟨d, _, hd⟩ := List.mem_flatMap.mp hv
        have := mem_doorCheck_type G (build_wall_index layout)
          (wallGeometriesOf G (build_wall_index layout))
          (fixtureGeometriesOf G layout.fixtures) d v hd
        simp [this])
    have h5 : List.filter
        (fun v => decide (v.type = ConstraintViolationType.DOOR_SWING_BLOCKED))
        (areaBudgetViolations G (roomPolygonsOf G layout.rooms) layout) = [] :=
      List.filter_eq_nil_iff.mpr (fun v hv => by
        have := mem_areaBudget_type G (roomPolygonsOf G layout.rooms)
          layout v hv
        simp [this])
    have h6 : List.filter
        (fun v => decide (v.type = ConstraintViolationType.DOOR_SWING_BLOCKED))
        (fixturePlacementViolations G
          (roomByNameOf (roomPolygonsOf G layout.rooms) layout.rooms)
          layout.fixtures) = [] :=
      List.filter_eq_nil_iff.mpr (fun v hv => by
        have := mem_placement_type G
          (roomByNameOf (roomPolygonsOf G layout.rooms) layout.rooms)
          layout.fixtures v hv
        simp [this])
    have h7 : List.filter
        (fun v => decide (v.type = ConstraintViolationType.DOOR_SWING_BLOCKED))
        (fixtureOverlapViolations G (fixtureGeometriesOf G layout.fixtures)
          layout.fixtures) = [] :=
      List.filter_eq_nil_iff.mpr (fun v hv => by
        have := mem_fixtureOverlap_type G
          (fixtureGeometriesOf G layout.fixtures) layout.fixtures v hv
        simp [this])
    rw [h0, h1, h2, h3, h4, h5, h6, h7]
    simp
  · intro d host hnd hhost harc hhit
    obtain ⟨kv0, hkvmem, hkvp⟩ := hhit
    have hfind : ((wallGeometriesOf G (build_wall_index layout)).find?
        (fun kv => decide (kv.1 ≠ d.wall_id) &&
          decide (0 < G.interArea (G.doorSwingArc host d) kv.2))).isSome := by
      rw [List.find?_isSome]
      exact ⟨kv0, hkvmem, by simp [hkvp.1, hkvp.2]⟩
    obtain ⟨kvf, hkvf⟩ := Option.isSome_iff_exists.mp hfind
    have hp := List.find?_some hkvf
    simp only [Bool.and_eq_true, decide_eq_true_eq] at hp
    refine ⟨kvf.1, kvf.2, by rw [hkvf], hp.1, hp.2, ?_⟩
    unfold doorCheck
    rw [if_neg hnd, hhost]
    dsimp only
    rw [if_neg (by rw [harc]; exact Bool.false_ne_true), hkvf]

def wHostWall : InteriorWall := ⟨"iw_1", 3000, 0, 3000, 6000, 100, "drywall"⟩

def wBlockWall : InteriorWall :=
  ⟨"iw_2", 3200, 3100, 5000, 3100, 100, "drywall"⟩

def wHingedDoor : Door := ⟨"d_1", "iw_1", 1/2, 900, .left, .single⟩

/-- A hinged door on iw_1 whose swing region meets iw_2. -/
def wDoorLayout : GeneratedLayout :=
  { rooms := [wOverlapRoomA]
    interior_walls := [wHostWall, wBlockWall]
    doors := [wHingedDoor]
    fixtures := []
    grid_size_mm := 50
    prompt := "p"
    perimeter_walls := []
    page_dimensions_mm := (10000, 10000) }

/-- Witness for C5: the concrete hinged door is blocked by wall iw_2. -/
theorem door_swing_first_wall_hit_witness :
    ¬(wHingedDoor.door_type = .sliding ∨
      wHingedDoor.swing_direction = .sliding) ∧
    dictGet (build_wall_index wDoorLayout) wHingedDoor.wall_id =
      some wHostWall ∧
    rectGeom.isEmpty (rectGeom.doorSwingArc wHostWall wHingedDoor) = false ∧
    (∃ w wp,
      (wallGeometriesOf rectGeom (build_wall_index wDoorLayout)).find?
        (fun kv => decide (kv.1 ≠ wHingedDoor.wall_id) &&
          decide (0 < rectGeom.interArea
            (rectGeom.doorSwingArc wHostWall wHingedDoor) kv.2)) =
        some (w, wp) ∧
      w ≠ wHingedDoor.wall_id ∧
      0 < rectGeom.interArea
        (rectGeom.doorSwingArc wHostWall wHingedDoor) wp ∧
      doorCheck rectGeom (build_wall_index wDoorLayout)
        (wallGeometriesOf rectGeom (build_wall_index wDoorLayout))
        (fixtureGeometriesOf rectGeom wDoorLayout.fixtures) wHingedDoor =
        [⟨.DOOR_SWING_BLOCKED,
          "Door " ++ wHingedDoor.id ++ " swing intersects wall " ++ w ++ ".",
          .error, [wHingedDoor.id, w]⟩]) := by
  have harea : 0 < rectGeom.interArea
      (rectGeom.doorSwingArc wHostWall wHingedDoor)
      (rectGeom.wallPolygon 3200 3100 5000 3100 100) := by
    show (0 : ℚ) < rectInterArea _ _
    norm_num [rectGeom, rectInterArea, bboxMaxX, bboxMinX, bboxMaxY, bboxMinY,
      listMax, listMin, wHostWall, wHingedDoor, max_def, min_def,
      List.foldl_cons, List.foldl_nil]
  refine ⟨by decide, rfl, rfl, ?_⟩
  exact (door_swing_sliding_skip_and_first_wall_hit rectGeom wDoorLayout).2.2
    wHingedDoor wHostWall (by decide) rfl rfl
    ⟨("iw_2", rectGeom.wallPolygon 3200 3100 5000 3100 100),
      by
        have hwg : wallGeometriesOf rectGeom (build_wall_index wDoorLayout) =
          [("iw_1", rectGeom.wallPolygon 3000 0 3000 6000 100),
           ("iw_2", rectGeom.wallPolygon 3200 3100 5000 3100 100)] := rfl
        rw [hwg]
        simp,
      by decide, harea⟩

def farB1 : List (ℚ × ℚ) :=
  [(0, 0), (1000, 0), (1000, 1000), (0, 1000), (0, 0)]

def farB2 : List (ℚ × ℚ) :=
  [(20000, 0), (21000, 0), (21000, 1000), (20000, 1000), (20000, 0)]

def farB3 : List (ℚ × ℚ) :=
  [(40000, 0), (41000, 0), (41000, 1000), (40000, 1000), (40000, 0)]

/-- Three rooms whose bounding boxes are pairwise far apart. -/
def farRooms : List GeneratedRoom :=
  [⟨"R1", "operatory", farB1, 1⟩, ⟨"R2", "operatory", farB2, 1⟩,
   ⟨"R3", "operatory", farB3, 1⟩]

/-- C10: the room-overlap check of `validate_layout` computes an exact
polygon intersection for every one of the n(n-1)/2 unordered pairs — here
all 3 pairs of 3 rooms whose bounding boxes are pairwise disjoint
(intersection area 0), which a bounding-box-tree prefilter would have
pruned to 0 candidate pairs.  The source has no spatial index. -/
theorem room_overlap_checks_every_pair_no_index :
    roomOverlapExactChecks rectGeom (roomPolygonsOf rectGeom farRooms)
      farRooms = 3 ∧
    rectInterArea farB1 farB2 = 0 ∧ rectInterArea farB1 farB3 = 0 ∧
    rectInterArea farB2 farB3 = 0 := by
  refine ⟨rfl, ?_, ?_, ?_⟩ <;>
    norm_num [rectInterArea, bboxMaxX, bboxMinX, bboxMaxY, bboxMinY,
      listMax, listMin, farB1, farB2, farB3, max_def, min_def,
      List.foldl_cons, List.foldl_nil]

/-!  ## Fanout controller (`app/services/generation_pipeline.py`)  -/

/-- `_constraint_score`: (error count, warning count), lower is better. -/
def constraint_score (cr : ConstraintResult) : ℕ × ℕ :=
  let error_count := cr.violations.countP (fun v => decide (v.severity = .error))
  (error_count, cr.violations.length - error_count)

/-- `_compute_adaptive_candidates` from `app/services/generation_pipeline.py`. -/
def compute_adaptive_candidates (requested_candidates : ℤ)
    (prior_constraint_result : Option ConstraintResult)
    (prior_candidate_errors : ℤ) (prior_total_candidates : ℤ)
    (candidate_min candidate_max : ℤ) : ℤ :=
  if requested_candidates ≤ 1 then 1
  else
    match prior_constraint_result with
    | none => max candidate_min (min candidate_max requested_candidates)
    | some prior =>
        let scores := constraint_score prior
        let failure_rate : ℚ :=
          if 0 < prior_total_candidates then
            (prior_candidate_errors : ℚ) / (prior_total_candidates : ℚ)
          else 0
        let adjusted :=
          if 0 < failure_rate then requested_candidates - 1
          else if scores.1 = 0 ∧ 0 < scores.2 then requested_candidates + 1
          else requested_candidates
        max candidate_min (min candidate_max adjusted)

lemma rate_pos_iff (errs total : ℤ) :
    (0 < (if 0 < total then (errs : ℚ) / (total : ℚ) else 0)) ↔
      (0 < errs ∧ 0 < total) := by
  by_cases h : 0 < total
  · rw [if_pos h]
    constructor
    · intro hr
      rw [div_pos_iff] at hr
      rcases hr with ⟨he, _⟩ | ⟨_, ht⟩
      · exact ⟨by exact_mod_cast he, h⟩
      · exact absurd ht (not_lt.mpr (by exact_mod_cast h.le))
    · rintro ⟨he, _⟩
      exact div_pos (by exact_mod_cast he) (by exact_mod_cast h)
  · rw [if_neg h]
    simp only [lt_self_iff_false, false_iff, not_and]
    intro _
    exact h

/-- C3 (amended): the fanout controller returns 1 whenever requested <= 1;
with no prior verdict it clamps the request; with a prior verdict it
reduces by one when the prior iteration had at least one generation
failure out of at least one candidate, grows by one on a warnings-only
prior verdict, and otherwise keeps the count — always clamped; and the
result lies in [candidate_min, candidate_max] whenever that interval is
non-empty. -/
theorem compute_adaptive_candidates_spec (requested : ℤ)
    (prior : Option ConstraintResult) (errs total cmin cmax : ℤ) :
    (requested ≤ 1 →
      compute_adaptive_candidates requested prior errs total cmin cmax = 1) ∧
    (1 < requested → prior = none →
      compute_adaptive_candidates requested prior errs total cmin cmax =
        max cmin (min cmax requested)) ∧
    (1 < requested → ∀ cr, prior = some cr →
      ((0 < errs ∧ 0 < total) →
        compute_adaptive_candidates requested prior errs total cmin cmax =
          max cmin (min cmax (requested - 1))) ∧
      (¬(0 < errs ∧ 0 < total) → (constraint_score cr).1 = 0 →
        0 < (constraint_score cr).2 →
        compute_adaptive_candidates requested prior errs total cmin cmax =
          max cmin (min cmax (requested + 1))) ∧
      (¬(0 < errs ∧ 0 < total) →
        ¬((constraint_score cr).1 = 0 ∧ 0 < (constraint_score cr).2) →
        compute_adaptive_candidates requested prior errs total cmin cmax =
          max cmin (min cmax requested))) ∧
    (1 < requested → cmin ≤ cmax →
      cmin ≤ compute_adaptive_candidates requested prior errs total cmin cmax ∧
      compute_adaptive_candidates requested prior errs total cmin cmax ≤
        cmax) := by
  refine ⟨?_, ?_, ?_, ?_⟩
  · intro h
    unfold compute_adaptive_candidates
    rw [if_pos h]
  · intro h hn
    subst hn
    unfold compute_adaptive_candidates
    rw [if_neg (not_le.mpr h)]
  · intro h cr hc
    subst hc
    unfold compute_adaptive_candidates
    rw [if_neg (not_le.mpr h)]
    dsimp only
    refine ⟨?_, ?_, ?_⟩
    · intro hp
      rw [if_pos ((rate_pos_iff errs total).mpr hp)]
    · intro hnp hz hw
      rw [if_neg (fun hcon => hnp ((rate_pos_iff errs total).mp hcon)),
        if_pos ⟨hz, hw⟩]
    · intro hnp hno
      rw [if_neg (fun hcon => hnp ((rate_pos_iff errs total).mp hcon)),
        if_neg hno]
  · intro h hle
    unfold compute_adaptive_candidates
    rw [if_neg (not_le.mpr h)]
    cases prior with
    | none => exact ⟨le_max_left _ _, max_le hle (min_le_left _ _)⟩
    | some cr =>
        dsimp only
        exact ⟨le_max_left _ _, max_le hle (min_le_left _ _)⟩

/-- A one-error prior verdict. -/
def failCR : ConstraintResult :=
  ⟨false, [⟨.ROOM_OVERLAP, "e", .error, []⟩], "1 errors, 0 warnings"⟩

/-- A warnings-only prior verdict. -/
def warnCR : ConstraintResult :=
  ⟨true, [⟨.FIXTURE_OVERLAP, "w", .warning, []⟩], "0 errors, 1 warnings"⟩

/-- C3 counterexample: (i) with one generation failure reported out of zero
candidates the controller does *not* reduce (the failure rate is defined
as 0 when prior_total <= 0), contradicting the unconditional reduce-by-one
reading; (ii) with candidate_min = 5 > candidate_max = 2 the result (5)
does not lie in [candidate_min, candidate_max]. -/
theorem compute_adaptive_candidates_cex :
    compute_adaptive_candidates 3 (some failCR) 1 0 2 5 = 3 ∧
    max (2 : ℤ) (min 5 (3 - 1)) = 2 ∧
    ¬(compute_adaptive_candidates 3 none 0 3 5 2 ≤ 2) := by
  refine ⟨?_, by decide, by decide⟩
  decide

/-- Witness for the amended C3 theorem: warnings-only prior verdict grows
the fanout from 3 to 4 (clamped to [1, 4]). -/
theorem compute_adaptive_candidates_spec_witness :
    1 < (3 : ℤ) ∧ ¬(0 < (0 : ℤ) ∧ 0 < (3 : ℤ)) ∧
    (constraint_score warnCR).1 = 0 ∧ 0 < (constraint_score warnCR).2 ∧
    compute_adaptive_candidates 3 (some warnCR) 0 3 1 4 =
      max 1 (min 4 (3 + 1)) :=
  ⟨by decide, by decide, by decide, by decide,
   ((compute_adaptive_candidates_spec 3 (some warnCR) 0 3 1 4).2.2.1
     (by decide) warnCR rfl).2.1 (by decide) (by decide) (by decide)⟩

/-!  ## Candidate-generator retry wrapper
(`app/integrations/layout_generator.py`)

One call to `_call_gemini_with_timeout` is an oracle outcome: a response,
a `RuntimeError` (timeout / transient, retried) or any other exception
(permanent, wrapped and re-raised immediately).  The embedding returns the
outcome together with the number of service-call attempts made and the
list of backoff delays slept, in order. -/

inductive CallOutcome (ρ τ π : Type) where
  | ok (response : ρ)
  | runtimeError (e : τ)
  | otherError (e : π)

inductive RetryError (τ π : Type) where
  | wrapped (cause : π)
  | exhausted (cause : Option τ)

structure RetryTrace (ρ τ π : Type) where
  outcome : Except (RetryError τ π) ρ
  calls : ℕ
  delays : List ℚ

/-- The `for attempt in range(1, attempts + 1)` loop of
`_call_gemini_with_retry`; `fuel` is the number of remaining iterations. -/
def retryLoop {ρ τ π : Type} (call : ℕ → CallOutcome ρ τ π) (attempts : ℤ)
    (base_delay max_delay : ℚ) :
    ℕ → ℕ → Option τ → ℕ → List ℚ → RetryTrace ρ τ π
  | _, 0, lastExc, calls, delays => ⟨.error (.exhausted lastExc), calls, delays⟩
  | attempt, fuel+1, _, calls, delays =>
      match call attempt with
      | .ok r => ⟨.ok r, calls + 1, delays⟩
      | .runtimeError e =>
          if (attempt : ℤ) < attempts then
            retryLoop call attempts base_delay max_delay (attempt + 1) fuel
              (some e) (calls + 1)
              (delays ++ [min (base_delay * 2 ^ (attempt - 1)) max_delay])
          else
            retryLoop call attempts base_delay max_delay (attempt + 1) fuel
              (some e) (calls + 1) delays
      | .otherError p => ⟨.error (.wrapped p), calls + 1, delays⟩

/-- `_call_gemini_with_retry`: initial attempt plus `max_retries` retries. -/
def call_gemini_with_retry {ρ τ π : Type} (call : ℕ → CallOutcome ρ τ π)
    (max_retries : ℤ) (base_delay max_delay : ℚ) : RetryTrace ρ τ π :=
  let attempts := max_retries + 1
  retryLoop call attempts base_delay max_delay 1 attempts.toNat none 0 []

lemma retryLoop_transient_then_ok {ρ τ π : Type} (call : ℕ → CallOutcome ρ τ π)
    (attempts : ℤ) (base_delay max_delay : ℚ) (e : ℕ → τ) (r : ρ) :
    ∀ (k attempt fuel : ℕ) (lastE : Option τ) (calls : ℕ) (delays : List ℚ),
    1 ≤ attempt →
    (∀ j, attempt ≤ j → j < attempt + k → call j = .runtimeError (e j)) →
    call (attempt + k) = .ok r →
    ((attempt : ℤ) + k ≤ attempts) →
    k + 1 ≤ fuel →
    retryLoop call attempts base_delay max_delay attempt fuel lastE calls
      delays =
      ⟨.ok r, calls + k + 1,
       delays ++ (List.range' (attempt - 1) k).map
         (fun i => min (base_delay * 2 ^ i) max_delay)⟩ := by
  intro k
  induction k with
  | zero =>
      intro attempt fuel lastE calls delays h1 _ hok _ hfuel
      obtain ⟨f, rfl⟩ : ∃ f, fuel = f + 1 := ⟨fuel - 1, by omega⟩
      rw [show attempt + 0 = attempt from rfl] at hok
      simp only [retryLoop, hok]
      simp
  | succ k ih =>
      intro attempt fuel lastE calls delays h1 htrans hok hle hfuel
      obtain ⟨f, rfl⟩ : ∃ f, fuel = f + 1 := ⟨fuel - 1, by omega⟩
      have hcall : call attempt = .runtimeError (e attempt) :=
        htrans attempt le_rfl (by omega)
      have hle' : (attempt : ℤ) + k + 1 ≤ attempts := by
        push_cast at hle
        omega
      simp only [retryLoop, hcall]
      rw [if_pos (show (attempt : ℤ) < attempts by omega)]
      rw [ih (attempt + 1) f (some (e attempt)) (calls + 1)
        (delays ++ [min (base_delay * 2 ^ (attempt - 1)) max_delay])
        (by omega)
        (fun j hj1 hj2 => htrans j (by omega) (by omega))
        (by rw [show attempt + 1 + k = attempt + (k + 1) by omega]; exact hok)
        (by push_cast; omega)
        (by omega)]
      have hcalls : calls + 1 + k + 1 = calls + (k + 1) + 1 := by omega
      have hdelays :
          (delays ++ [min (base_delay * 2 ^ (attempt - 1)) max_delay]) ++
            (List.range' (attempt + 1 - 1) k).map
              (fun i => min (base_delay * 2 ^ i) max_delay) =
          delays ++ (List.range' (attempt - 1) (k + 1)).map
            (fun i => min (base_delay * 2 ^ i) max_delay) := by
        rw [List.append_assoc, List.range'_succ,
          show attempt - 1 + 1 = attempt + 1 - 1 by omega]
        simp
      rw [hcalls, hdelays]

lemma retryLoop_all_transient {ρ τ π : Type} (call : ℕ → CallOutcome ρ τ π)
    (attempts : ℤ) (base_delay max_delay : ℚ) (e : ℕ → τ) :
    ∀ (k attempt : ℕ) (lastE : Option τ) (calls : ℕ) (delays : List ℚ),
    1 ≤ attempt →
    (∀ j, attempt ≤ j → j < attempt + k → call j = .runtimeError (e j)) →
    ((attempt : ℤ) + k = attempts + 1) →
    retryLoop call attempts base_delay max_delay attempt k lastE calls
      delays =
      ⟨.error (.exhausted
        (if k = 0 then lastE else some (e (attempt + k - 1)))), calls + k,
       delays ++ (List.range' (attempt - 1) (k - 1)).map
         (fun i => min (base_delay * 2 ^ i) max_delay)⟩ := by
  intro k
  induction k with
  | zero =>
      intro attempt lastE calls delays _ _ _
      simp [retryLoop]
  | succ k ih =>
      intro attempt lastE calls delays h1 htrans halign
      have hcall : call attempt = .runtimeError (e attempt) :=
        htrans attempt le_rfl (by omega)
      have hcast : (attempt : ℤ) + k + 1 = attempts + 1 := by
        push_cast at halign
        omega
      simp only [retryLoop, hcall]
      rcases Nat.eq_zero_or_pos k with rfl | hkpos
      · rw [if_neg (show ¬ (attempt : ℤ) < attempts by omega)]
        simp only [retryLoop]
        simp [show attempt + (0 + 1) - 1 = attempt from by omega]
      · rw [if_pos (show (attempt : ℤ) < attempts by omega)]
        rw [ih (attempt + 1) (some (e attempt)) (calls + 1)
          (delays ++ [min (base_delay * 2 ^ (attempt - 1)) max_delay])
          (by omega)
          (fun j hj1 hj2 => htrans j (by omega) (by omega))
          (by push_cast; omega)]
        rw [if_neg (by omega), if_neg (Nat.succ_ne_zero k)]
        have hidx : attempt + 1 + k - 1 = attempt + (k + 1) - 1 := by omega
        have hcalls : calls + 1 + k = calls + (k + 1) := by omega
        have hdelays :
            (delays ++ [min (base_delay * 2 ^ (attempt - 1)) max_delay]) ++
              (List.range' (attempt + 1 - 1) (k - 1)).map
                (fun i => min (base_delay * 2 ^ i) max_delay) =
            delays ++ (List.range' (attempt - 1) (k + 1 - 1)).map
              (fun i => min (base_delay * 2 ^ i) max_delay) := by
          rw [List.append_assoc,
            show k + 1 - 1 = (k - 1) + 1 by omega, List.range'_succ,
            show attempt - 1 + 1 = attempt + 1 - 1 by omega]
          simp
        rw [hidx, hcalls, hdelays]

/-- C4: transient (RuntimeError) failures back off by
min(base_delay * 2^(attempt-1), max_delay) before each retry — the k-th
recorded delay is min(base_delay * 2^k, max_delay), so delays double up to
the cap; a permanent (non-RuntimeError) failure on the first attempt makes
exactly one service call, sleeps never, and is wrapped and re-raised;
exhausting all max_retries + 1 attempts on transient failures raises an
error carrying the last transient error as cause. -/
theorem retry_backoff_spec {ρ τ π : Type} (call : ℕ → CallOutcome ρ τ π)
    (max_retries : ℤ) (h0 : 0 ≤ max_retries) (base_delay max_delay : ℚ)
    (e : ℕ → τ) :
    (∀ (m : ℕ) (r : ρ), (m : ℤ) < max_retries + 1 →
      (∀ j, 1 ≤ j → j ≤ m → call j = .runtimeError (e j)) →
      call (m + 1) = .ok r →
      call_gemini_with_retry call max_retries base_delay max_delay =
        ⟨.ok r, m + 1,
         (List.range m).map (fun i => min (base_delay * 2 ^ i) max_delay)⟩) ∧
    ((∀ j : ℕ, 1 ≤ j → (j : ℤ) ≤ max_retries + 1 →
        call j = .runtimeError (e j)) →
      call_gemini_with_retry call max_retries base_delay max_delay =
        ⟨.error (.exhausted (some (e (max_retries + 1).toNat))),
         (max_retries + 1).toNat,
         (List.range max_retries.toNat).map
           (fun i => min (base_delay * 2 ^ i) max_delay)⟩) ∧
    (∀ p, call 1 = .otherError p →
      call_gemini_with_retry call max_retries base_delay max_delay =
        ⟨.error (.wrapped p), 1, []⟩) := by
  refine ⟨?_, ?_, ?_⟩
  · intro m r hm htrans hok
    unfold call_gemini_with_retry
    rw [retryLoop_transient_then_ok call (max_retries + 1) base_delay
      max_delay e r m 1 (max_retries + 1).toNat none 0 [] le_rfl
      (fun j hj1 hj2 => htrans j hj1 (by omega))
      (by rw [show 1 + m = m + 1 by omega]; exact hok)
      (by push_cast; omega)
      (by omega)]
    have h1 : 0 + m + 1 = m + 1 := by omega
    have h2 : List.range' (1 - 1) m = List.range m := by
      rw [List.range_eq_range']
    rw [h1, h2]
    simp
  · intro htrans
    unfold call_gemini_with_retry
    rw [retryLoop_all_transient call (max_retries + 1) base_delay max_delay e
      (max_retries + 1).toNat 1 none 0 [] le_rfl
      (fun j hj1 hj2 => htrans j hj1 (by omega))
      (by omega)]

    rw [if_neg (by omega)]
    have h1 : 1 + (max_retries + 1).toNat - 1 = (max_retries + 1).toNat := by
      omega
    have h2 : 0 + (max_retries + 1).toNat = (max_retries + 1).toNat := by
      omega
    have h3 : List.range' (1 - 1) ((max_retries + 1).toNat - 1) =
        List.range max_retries.toNat := by
      rw [show (max_retries + 1).toNat - 1 = max_retries.toNat by omega,
        List.range_eq_range']
    rw [h1, h2, h3]
    simp
  · intro p hp
    unfold call_gemini_with_retry
    dsimp only
    obtain ⟨f, hf⟩ : ∃ f, (max_retries + 1).toNat = f + 1 :=
      ⟨(max_retries + 1).toNat - 1, by omega⟩
    rw [hf]
    simp only [retryLoop, hp]

/-- Two transient timeouts, then success. -/
def wRetryCall : ℕ → CallOutcome String String String :=
  fun j => if j ≤ 2 then .runtimeError ("t" ++ toString j) else .ok "resp"

def wRetryErr : ℕ → String := fun j => "t" ++ toString j

/-- Witness for C4: with base delay 1 and cap 30, two transient failures
produce the doubling delays [1, 2] before success on the third call. -/
theorem retry_backoff_spec_witness :
    0 ≤ (3 : ℤ) ∧ ((2 : ℕ) : ℤ) < 3 + 1 ∧
    (∀ j, 1 ≤ j → j ≤ 2 → wRetryCall j = .runtimeError (wRetryErr j)) ∧
    wRetryCall (2 + 1) = .ok "resp" ∧
    call_gemini_with_retry wRetryCall 3 1 30 =
      ⟨.ok "resp", 2 + 1,
       (List.range 2).map (fun i => min ((1 : ℚ) * 2 ^ i) 30)⟩ := by
  have ht : ∀ j, 1 ≤ j → j ≤ 2 →
      wRetryCall j = .runtimeError (wRetryErr j) := by
    intro j h1 h2
    interval_cases j <;> rfl
  exact ⟨by decide, by decide, ht, rfl,
    (retry_backoff_spec wRetryCall 3 (by decide) 1 30 wRetryErr).1 2 "resp"
      (by decide) ht rfl⟩

/-!  ## Orchestrator (`app/services/generation_pipeline.py`)

The external generator is an oracle: `collect iteration prompts` yields the
per-candidate results of generate-snap-validate, in completion order
(thread completion order is nondeterministic, so it is absorbed into the
oracle).  `max_workers` only sizes the per-iteration pool and has no
semantic effect beyond the guard. -/

def severity_upper : Severity → String
  | .error => "ERROR"
  | .warning => "WARNING"

/-- One feedback line of `_format_constraint_feedback`. -/
def violation_line (v : ConstraintViolation) : String :=
  let affected :=
    if v.affected_elements.isEmpty then ""
    else " (affected: " ++ String.intercalate ", " v.affected_elements ++ ")"
  "- [" ++ severity_upper v.severity ++ "] " ++ v.description ++ affected

/-- `_format_constraint_feedback`: (error lines, warning lines); the single
pass that appends to two lists equals two order-preserving filters. -/
def format_constraint_feedback (cr : ConstraintResult) : String × String :=
  let error_lines := (cr.violations.filter
    (fun v => decide (v.severity = .error))).map violation_line
  let warning_lines := (cr.violations.filter
    (fun v => decide (¬ v.severity = .error))).map violation_line
  let error_lines :=
    if error_lines.isEmpty then
      ["- [ERROR] Validation failed with no explicit blocking errors returned."]
    else error_lines
  (String.intercalate "\n" error_lines, String.intercalate "\n" warning_lines)

def qstr (s : String) : String := "\"" ++ s ++ "\""

def jlist (xs : List String) : String :=
  "[" ++ String.intercalate ", " xs ++ "]"

def jobj (fields : List (String × String)) : String :=
  "\x7b" ++
    String.intercalate ", " (fields.map (fun kv => qstr kv.1 ++ ": " ++ kv.2))
    ++ "\x7d"

def swingStr : SwingDirection → String
  | .left => "left"
  | .right => "right"
  | .sliding => "sliding"

def doorTypeStr : DoorType → String
  | .single => "single"
  | .double => "double"
  | .sliding => "sliding"

def pvalJson : PValue → String
  | .num q => toString q
  | .str s => qstr s

/-- Serializer standing for `json.dumps(previous_layout.to_json(), indent=2)`.
The indentation and float formatting of the Python dump are abstracted; no
claim depends on the rendered text, only on the prompt structure. -/
def layoutJson (layout : GeneratedLayout) : String :=
  jobj
    [("rooms", jlist (layout.rooms.map (fun room =>
        jobj [("name", qstr room.name), ("room_type", qstr room.room_type),
          ("boundary", jlist (room.boundary.map (fun p =>
            jlist [toString p.1, toString p.2]))),
          ("area_sqm", toString room.area_sqm)]))),
     ("interior_walls", jlist (layout.interior_walls.map (fun w =>
        jobj [("id", qstr w.id), ("x1", toString w.x1),
          ("y1", toString w.y1), ("x2", toString w.x2),
          ("y2", toString w.y2), ("thickness_mm", toString w.thickness_mm),
          ("material", qstr w.material)]))),
     ("doors", jlist (layout.doors.map (fun d =>
        jobj [("id", qstr d.id), ("wall_id", qstr d.wall_id),
          ("position_along_wall", toString d.position_along_wall),
          ("width_mm", toString d.width_mm),
          ("swing_direction", qstr (swingStr d.swing_direction)),
          ("door_type", qstr (doorTypeStr d.door_type))]))),
     ("fixtures", jlist (layout.fixtures.map (fun f =>
        jobj [("id", qstr f.id), ("room_name", qstr f.room_name),
          ("fixture_type", qstr f.fixture_type),
          ("center_x", toString f.center_x),
          ("center_y", toString f.center_y),
          ("width_mm", toString f.width_mm),
          ("depth_mm", toString f.depth_mm),
          ("rotation_deg", toString f.rotation_deg)]))),
     ("grid_size_mm", toString layout.grid_size_mm),
     ("prompt", qstr layout.prompt),
     ("perimeter_walls", jlist (layout.perimeter_walls.map (fun w =>
        jobj (w.map (fun kv => (kv.1, pvalJson kv.2)))))),
     ("page_dimensions_mm", jlist [toString layout.page_dimensions_mm.1,
        toString layout.page_dimensions_mm.2])]

/-- `_build_feedback_prompt`. -/
def build_feedback_prompt (original_prompt : String)
    (previous_layout : GeneratedLayout) (constraint_result : ConstraintResult) :
    String :=
  let fw := format_constraint_feedback constraint_result
  let previous_layout_json := layoutJson previous_layout
  let warning_block :=
    if fw.2 = "" then ""
    else "\nSecondary warnings to improve after fixing blocking errors:\n" ++
      fw.2 ++ "\n"
  original_prompt ++ "\n\n" ++
    "PREVIOUS ATTEMPT FAILED VALIDATION.\n" ++
    "Previous generated layout JSON:\n" ++ previous_layout_json ++ "\n\n" ++
    "Blocking errors to fix first:\n" ++ fw.1 ++ "\n" ++ warning_block ++
    "\n" ++
    "Regenerate the layout fixing these constraint violations. " ++
    "Keep all valid elements unchanged where possible. " ++
    "Return a full layout JSON and ensure no blocking [ERROR] violations remain."

/-- `_candidate_prompt`: deterministic rotating hint, applied only when more
than one candidate is requested. -/
def candidate_prompt (base_prompt : String) (candidate_index : ℕ)
    (total_candidates : ℤ) : String :=
  if total_candidates ≤ 1 then base_prompt
  else
    let variation_hints :=
      ["Prioritize conflict-free door swings around interior walls.",
       "Prioritize fixture spacing to avoid overlaps while preserving circulation.",
       "Prefer sliding doors in tight spaces where swing clearance is hard."]
    let hint := variation_hints.getD ((candidate_index - 1) % 3) ""
    base_prompt ++ "\n\n" ++ "CANDIDATE_VARIATION " ++
      toString candidate_index ++ "/" ++ toString total_candidates ++ ": " ++
      hint

/-- Python tuple comparison on `(error_count, warning_count)`. -/
def scoreLt (a b : ℕ × ℕ) : Prop :=
  a.1 < b.1 ∨ (a.1 = b.1 ∧ a.2 < b.2)

instance scoreLt_decidable (a b : ℕ × ℕ) : Decidable (scoreLt a b) := by
  unfold scoreLt
  infer_instance

/-- `min(candidate_outcomes, key=...)`: first element with minimal score. -/
def selectBest :
    List (GeneratedLayout × ConstraintResult) →
    Option (GeneratedLayout × ConstraintResult)
  | [] => none
  | x :: xs => some (xs.foldl (fun best cand =>
      if scoreLt (constraint_score cand.2) (constraint_score best.2) then cand
      else best) x)

/-- Errors raised by `generate_validated_layout`: the argument guards
(`ValueError`) and the all-candidates-failed `RuntimeError`, whose cause
is the first captured candidate exception when one exists. -/
inductive PipelineError (ε : Type) where
  | valueError (msg : String)
  | allCandidatesFailed (msg : String) (cause : Option ε)

def okResults {ε : Type} (rs : List (Except ε (GeneratedLayout × ConstraintResult))) :
    List (GeneratedLayout × ConstraintResult) :=
  rs.filterMap (fun r => match r with
    | .ok a => some a
    | .error _ => none)

def errResults {ε : Type} (rs : List (Except ε (GeneratedLayout × ConstraintResult))) :
    List ε :=
  rs.filterMap (fun r => match r with
    | .error e => some e
    | .ok _ => none)

/-- Loop-carried state of `generate_validated_layout`. -/
structure LoopState where
  currentPrompt : String
  currentCandidates : ℤ
  priorCR : Option ConstraintResult
  priorErrs : ℤ
  history : List ConstraintResult
  lastLayout : Option GeneratedLayout

/-- The `for iteration in range(1, max_iterations + 1)` loop; `fuel` is the
number of remaining iterations. -/
def pipelineLoop {ε : Type}
    (collect : ℕ → List String →
      List (Except ε (GeneratedLayout × ConstraintResult)))
    (showExc : ε → String) (original_prompt : String) (max_iterations : ℤ)
    (cmin cmax : ℤ) :
    ℕ → ℕ → LoopState → Except (PipelineError ε) GenerationResult
  | _, 0, st =>
      .ok ⟨st.lastLayout, false, max_iterations, st.history,
        some ("Layout failed validation after " ++ toString max_iterations ++
          " attempts")⟩
  | iteration, fuel + 1, st =>
      let cc := compute_adaptive_candidates st.currentCandidates st.priorCR
        st.priorErrs st.currentCandidates cmin cmax
      let prompts := (List.range cc.toNat).map
        (fun i => candidate_prompt st.currentPrompt (i + 1) cc)
      let results := collect iteration prompts
      let outcomes := okResults results
      let errors := errResults results
      match selectBest outcomes with
      | none =>
          .error (.allCandidatesFailed
            ("All generation candidates failed: " ++
              (match errors.head? with
               | some e => showExc e
               | none => "No candidates produced"))
            errors.head?)
      | some sel =>
          let history := st.history ++ [sel.2]
          if sel.2.passed then
            .ok ⟨some sel.1, true, (iteration : ℤ), history, none⟩
          else
            pipelineLoop collect showExc original_prompt max_iterations cmin
              cmax (iteration + 1) fuel
              ⟨build_feedback_prompt original_prompt sel.1 sel.2, cc,
               some sel.2, (errors.length : ℤ), history, some sel.1⟩

/-- `generate_validated_layout` from `app/services/generation_pipeline.py`
(the spatial graph and base prompt reach the generator through the
`collect` oracle). -/
def generate_validated_layout {ε : Type}
    (collect : ℕ → List String →
      List (Except ε (GeneratedLayout × ConstraintResult)))
    (showExc : ε → String) (prompt : String)
    (max_iterations parallel_candidates max_workers cmin cmax : ℤ) :
    Except (PipelineError ε) GenerationResult :=
  if max_iterations ≤ 0 then .error (.valueError "max_iterations must be at least 1")
  else if parallel_candidates ≤ 0 then
    .error (.valueError "parallel_candidates must be at least 1")
  else if max_workers ≤ 0 then
    .error (.valueError "max_workers must be at least 1")
  else
    pipelineLoop collect showExc prompt max_iterations cmin cmax 1
      max_iterations.toNat ⟨prompt, parallel_candidates, none, 0, [], none⟩

/-- The per-iteration selected (layout, verdict) pairs of a run in which no
iteration passes — the same recursion as `pipelineLoop` without the early
exits. -/
def failTrace {ε : Type}
    (collect : ℕ → List String →
      List (Except ε (GeneratedLayout × ConstraintResult)))
    (original_prompt : String) (cmin cmax : ℤ) :
    ℕ → ℕ → LoopState → List (GeneratedLayout × ConstraintResult)
  | _, 0, _ => []
  | iteration, fuel + 1, st =>
      let cc := compute_adaptive_candidates st.currentCandidates st.priorCR
        st.priorErrs st.currentCandidates cmin cmax
      let prompts := (List.range cc.toNat).map
        (fun i => candidate_prompt st.currentPrompt (i + 1) cc)
      match selectBest (okResults (collect iteration prompts)) with
      | none => []
      | some sel =>
          sel :: failTrace collect original_prompt cmin cmax (iteration + 1)
            fuel
            ⟨build_feedback_prompt original_prompt sel.1 sel.2, cc,
             some sel.2, ((errResults (collect iteration prompts)).length : ℤ),
             st.history ++ [sel.2], some sel.1⟩

/-- The layout reported at exhaustion: the last selected candidate, or the
initial `last_snapped_layout` when no iteration ran. -/
def lastOf (prev : Option GeneratedLayout)
    (trace : List (GeneratedLayout × ConstraintResult)) :
    Option GeneratedLayout :=
  match trace.getLast? with
  | some x => some x.1
  | none => prev

lemma lastOf_cons (prev : Option GeneratedLayout)
    (x : GeneratedLayout × ConstraintResult)
    (tr : List (GeneratedLayout × ConstraintResult)) :
    lastOf prev (x :: tr) = lastOf (some x.1) tr := by
  cases tr with
  | nil => rfl
  | cons y ys =>
      unfold lastOf
      rw [List.getLast?_cons_cons]
      cases h : (y :: ys).getLast? with
      | none => simp at h
      | some z => rfl

lemma pipelineLoop_all_fail {ε : Type}
    (collect : ℕ → List String →
      List (Except ε (GeneratedLayout × ConstraintResult)))
    (showExc : ε → String) (original_prompt : String) (max_iterations : ℤ)
    (cmin cmax : ℤ)
    (hfail : ∀ it ps, (∃ sel, selectBest (okResults (collect it ps)) = some sel) ∧
      ∀ sel, selectBest (okResults (collect it ps)) = some sel →
        sel.2.passed = false) :
    ∀ (fuel iteration : ℕ) (st : LoopState),
    pipelineLoop collect showExc original_prompt max_iterations cmin cmax
      iteration fuel st =
      .ok ⟨lastOf st.lastLayout
            (failTrace collect original_prompt cmin cmax iteration fuel st),
           false, max_iterations,
           st.history ++ (failTrace collect original_prompt cmin cmax
             iteration fuel st).map Prod.snd,
           some ("Layout failed validation after " ++
             toString max_iterations ++ " attempts")⟩ := by
  intro fuel
  induction fuel with
  | zero =>
      intro iteration st
      simp [pipelineLoop, failTrace, lastOf]
  | succ fuel ih =>
      intro iteration st
      obtain ⟨⟨sel, hsel⟩, hnp⟩ := hfail iteration
        ((List.range (compute_adaptive_candidates st.currentCandidates
          st.priorCR st.priorErrs st.currentCandidates cmin cmax).toNat).map
          (fun i => candidate_prompt st.currentPrompt (i + 1)
            (compute_adaptive_candidates st.currentCandidates st.priorCR
              st.priorErrs st.currentCandidates cmin cmax)))
      simp only [pipelineLoop, failTrace, hsel]
      rw [if_neg (by rw [hnp sel hsel]; exact Bool.false_ne_true)]
      rw [ih]
      rw [lastOf_cons]
      simp [List.append_assoc]

lemma failTrace_length {ε : Type}
    (collect : ℕ → List String →
      List (Except ε (GeneratedLayout × ConstraintResult)))
    (original_prompt : String) (cmin cmax : ℤ)
    (hfail : ∀ it ps, (∃ sel, selectBest (okResults (collect it ps)) = some sel) ∧
      ∀ sel, selectBest (okResults (collect it ps)) = some sel →
        sel.2.passed = false) :
    ∀ (fuel iteration : ℕ) (st : LoopState),
    (failTrace collect original_prompt cmin cmax iteration fuel st).length =
      fuel := by
  intro fuel
  induction fuel with
  | zero =>
      intro iteration st
      rfl
  | succ fuel ih =>
      intro iteration st
      obtain ⟨⟨sel, hsel⟩, _⟩ := hfail iteration
        ((List.range (compute_adaptive_candidates st.currentCandidates
          st.priorCR st.priorErrs st.currentCandidates cmin cmax).toNat).map
          (fun i => candidate_prompt st.currentPrompt (i + 1)
            (compute_adaptive_candidates st.currentCandidates st.priorCR
              st.priorErrs st.currentCandidates cmin cmax)))
      simp only [failTrace, hsel, List.length_cons]
      rw [ih]

lemma failTrace_all_fail {ε : Type}
    (collect : ℕ → List String →
      List (Except ε (GeneratedLayout × ConstraintResult)))
    (original_prompt : String) (cmin cmax : ℤ)
    (hfail : ∀ it ps, (∃ sel, selectBest (okResults (collect it ps)) = some sel) ∧
      ∀ sel, selectBest (okResults (collect it ps)) = some sel →
        sel.2.passed = false) :
    ∀ (fuel iteration : ℕ) (st : LoopState),
    ∀ x ∈ failTrace collect original_prompt cmin cmax iteration fuel st,
      x.2.passed = false := by
  intro fuel
  induction fuel with
  | zero =>
      intro iteration st x hx
      cases hx
  | succ fuel ih =>
      intro iteration st x hx
      revert hx
      obtain ⟨⟨sel, hsel⟩, hnp⟩ := hfail iteration
        ((List.range (compute_adaptive_candidates st.currentCandidates
          st.priorCR st.priorErrs st.currentCandidates cmin cmax).toNat).map
          (fun i => candidate_prompt st.currentPrompt (i + 1)
            (compute_adaptive_candidates st.currentCandidates st.priorCR
              st.priorErrs st.currentCandidates cmin cmax)))
      simp only [failTrace, hsel, List.mem_cons]
      rintro (rfl | hx)
      · exact hnp _ hsel
      · exact ih _ _ x hx

/-- C1: when every iteration's selected candidate fails validation, the
run returns (not raises) a `GenerationResult` with `success = false`,
`iterations_used = max_iterations`, the stated failure message, the
per-iteration selected verdicts as `constraint_history` (one per
iteration, in order), and the last iteration's selected layout. -/
theorem generate_validated_layout_exhaustion {ε : Type}
    (collect : ℕ → List String →
      List (Except ε (GeneratedLayout × ConstraintResult)))
    (showExc : ε → String) (prompt : String)
    (max_iterations parallel_candidates max_workers cmin cmax : ℤ)
    (hm : 0 < max_iterations) (hp : 0 < parallel_candidates)
    (hw : 0 < max_workers)
    (hfail : ∀ it ps, (∃ sel, selectBest (okResults (collect it ps)) = some sel) ∧
      ∀ sel, selectBest (okResults (collect it ps)) = some sel →
        sel.2.passed = false) :
    ∃ trace : List (GeneratedLayout × ConstraintResult),
      trace = failTrace collect prompt cmin cmax 1 max_iterations.toNat
        ⟨prompt, parallel_candidates, none, 0, [], none⟩ ∧
      trace.length = max_iterations.toNat ∧
      (∀ x ∈ trace, x.2.passed = false) ∧
      generate_validated_layout collect showExc prompt max_iterations
        parallel_candidates max_workers cmin cmax =
        .ok ⟨(trace.getLast?).map Prod.fst, false, max_iterations,
          trace.map Prod.snd,
          some ("Layout failed validation after " ++
            toString max_iterations ++ " attempts")⟩ := by
  refine ⟨_, rfl,
    failTrace_length collect prompt cmin cmax hfail _ _ _,
    failTrace_all_fail collect prompt cmin cmax hfail _ _ _, ?_⟩
  unfold generate_validated_layout
  rw [if_neg (not_le.mpr hm), if_neg (not_le.mpr hp), if_neg (not_le.mpr hw)]
  rw [pipelineLoop_all_fail collect showExc prompt max_iterations cmin cmax
    hfail max_iterations.toNat 1 ⟨prompt, parallel_candidates, none, 0, [], none⟩]
  have hlast : lastOf none
      (failTrace collect prompt cmin cmax 1 max_iterations.toNat
        ⟨prompt, parallel_candidates, none, 0, [], none⟩) =
      ((failTrace collect prompt cmin cmax 1 max_iterations.toNat
        ⟨prompt, parallel_candidates, none, 0, [], none⟩).getLast?).map
        Prod.fst := by
    unfold lastOf
    cases (failTrace collect prompt cmin cmax 1 max_iterations.toNat
      ⟨prompt, parallel_candidates, none, 0, [], none⟩).getLast? <;> rfl
  rw [hlast]
  rfl

/-- An oracle on which every candidate parses but fails validation. -/
def wExhCollect : ℕ → List String →
    List (Except Unit (GeneratedLayout × ConstraintResult)) :=
  fun _ _ => [.ok (wLayout, failCR)]

lemma wExhCollect_selectBest (it : ℕ) (ps : List String) :
    selectBest (okResults (wExhCollect it ps)) = some (wLayout, failCR) := rfl

/-- C1 witness: a two-iteration run in which the single candidate always
fails validation. -/
theorem generate_validated_layout_exhaustion_witness :
    (0 : ℤ) < 2 ∧ (0 : ℤ) < 1 ∧ (0 : ℤ) < 4 ∧
    ∃ trace : List (GeneratedLayout × ConstraintResult),
      trace = failTrace wExhCollect "p" 1 4 1 (2 : ℤ).toNat
        ⟨"p", 1, none, 0, [], none⟩ ∧
      trace.length = (2 : ℤ).toNat ∧
      (∀ x ∈ trace, x.2.passed = false) ∧
      generate_validated_layout wExhCollect (fun _ => "boom") "p" 2 1 4 1 4 =
        .ok ⟨(trace.getLast?).map Prod.fst, false, 2, trace.map Prod.snd,
          some ("Layout failed validation after " ++ toString (2 : ℤ) ++
            " attempts")⟩ :=
  ⟨by norm_num, by norm_num, by norm_num,
   generate_validated_layout_exhaustion wExhCollect (fun _ => "boom") "p"
     2 1 4 1 4 (by norm_num) (by norm_num) (by norm_num)
     (fun it ps => ⟨⟨(wLayout, failCR), wExhCollect_selectBest it ps⟩,
       fun sel hsel => by
         rw [wExhCollect_selectBest it ps] at hsel
         cases hsel
         rfl⟩)⟩

/-- The candidate prompts computed by an iteration that starts in state
`st` — exactly the `prompts` local of `pipelineLoop`. -/
def promptsOf (st : LoopState) (cmin cmax : ℤ) : List String :=
  (List.range (compute_adaptive_candidates st.currentCandidates st.priorCR
    st.priorErrs st.currentCandidates cmin cmax).toNat).map
    (fun i => candidate_prompt st.currentPrompt (i + 1)
      (compute_adaptive_candidates st.currentCandidates st.priorCR
        st.priorErrs st.currentCandidates cmin cmax))

lemma pipelineLoop_ok_of_nonempty {ε : Type}
    (collect : ℕ → List String →
      List (Except ε (GeneratedLayout × ConstraintResult)))
    (showExc : ε → String) (original_prompt : String)
    (max_iterations cmin cmax : ℤ)
    (hne : ∀ it ps, okResults (collect it ps) ≠ []) :
    ∀ (fuel iteration : ℕ) (st : LoopState),
    ∃ r, pipelineLoop collect showExc original_prompt max_iterations cmin cmax
      iteration fuel st = .ok r := by
  intro fuel
  induction fuel with
  | zero =>
      intro iteration st
      exact ⟨_, rfl⟩
  | succ fuel ih =>
      intro iteration st
      simp only [pipelineLoop]
      obtain ⟨x, xs, hx⟩ := List.exists_cons_of_ne_nil (hne iteration
        ((List.range (compute_adaptive_candidates st.currentCandidates
          st.priorCR st.priorErrs st.currentCandidates cmin cmax).toNat).map
          (fun i => candidate_prompt st.currentPrompt (i + 1)
            (compute_adaptive_candidates st.currentCandidates st.priorCR
              st.priorErrs st.currentCandidates cmin cmax))))
      rw [hx]
      simp only [selectBest]
      by_cases hb : (xs.foldl (fun best cand =>
          if scoreLt (constraint_score cand.2) (constraint_score best.2)
          then cand else best) x).2.passed = true
      · rw [if_pos hb]
        exact ⟨_, rfl⟩
      · rw [if_neg hb]
        exact ih _ _

/-- C6: (a) in any iteration, from any loop state, if every candidate of
that iteration fails at the generation stage (zero successful pairs), the
run aborts with an `allCandidatesFailed` error carrying the first captured
candidate exception as cause; (b) this is the only mid-run abort: once the
argument guards pass, if every iteration produces at least one successful
pair the run returns a structured `GenerationResult`. -/
theorem generate_validated_layout_abort {ε : Type}
    (collect : ℕ → List String →
      List (Except ε (GeneratedLayout × ConstraintResult)))
    (showExc : ε → String) (prompt : String)
    (max_iterations parallel_candidates max_workers cmin cmax : ℤ)
    (hm : 0 < max_iterations) (hp : 0 < parallel_candidates)
    (hw : 0 < max_workers) :
    (∀ (fuel iteration : ℕ) (st : LoopState),
      okResults (collect iteration (promptsOf st cmin cmax)) = [] →
      pipelineLoop collect showExc prompt max_iterations cmin cmax iteration
        (fuel + 1) st =
        .error (.allCandidatesFailed
          ("All generation candidates failed: " ++
            (match (errResults (collect iteration
                (promptsOf st cmin cmax))).head? with
             | some e => showExc e
             | none => "No candidates produced"))
          (errResults (collect iteration (promptsOf st cmin cmax))).head?)) ∧
    ((∀ it ps, okResults (collect it ps) ≠ []) →
      ∃ r, generate_validated_layout collect showExc prompt max_iterations
        parallel_candidates max_workers cmin cmax = .ok r) := by
  constructor
  · intro fuel iteration st h
    unfold promptsOf at h
    simp only [pipelineLoop]
    rw [h]
    rfl
  · intro hne
    unfold generate_validated_layout
    rw [if_neg (not_le.mpr hm), if_neg (not_le.mpr hp), if_neg (not_le.mpr hw)]
    exact pipelineLoop_ok_of_nonempty collect showExc prompt max_iterations
      cmin cmax hne _ _ _

/-- An oracle on which every candidate fails at the generation stage. -/
def wAbortCollect : ℕ → List String →
    List (Except Unit (GeneratedLayout × ConstraintResult)) :=
  fun _ _ => [.error ()]

/-- C6 witness: with a single candidate that raises, the run aborts with
the captured exception as cause. -/
theorem generate_validated_layout_abort_witness :
    generate_validated_layout wAbortCollect (fun _ => "boom") "p" 1 1 1 1 1 =
      .error (.allCandidatesFailed
        ("All generation candidates failed: " ++ "boom") (some ())) := by
  have h := (generate_validated_layout_abort wAbortCollect (fun _ => "boom")
    "p" 1 1 1 1 1 (by norm_num) (by norm_num) (by norm_num)).1 0 1
    ⟨"p", 1, none, 0, [], none⟩ rfl
  exact Trans.trans
    (show generate_validated_layout wAbortCollect (fun _ => "boom") "p"
        1 1 1 1 1 =
      pipelineLoop wAbortCollect (fun _ => "boom") "p" 1 1 1 1 (0 + 1)
        ⟨"p", 1, none, 0, [], none⟩ from rfl)
    (Trans.trans h rfl)
